import Mathlib

/-!
# Breakeven calculators

A shallow embedding of the two calculators of the repository:

* `script.js`  : the simple calculator, function `calculateBreakeven`, which reads three
  input elements of the page and writes three spans (namespace `Simple`);
* `script1.js` : the detailed hospitality calculator, the React component `App` with its
  helpers `parseNumber` and `calculateBreakeven` (namespace `Detailed`).

## Numbers

Two models of a JavaScript number are used.

* `JSNum`, exact: either `NaN` or a finite value, the finite values being rationals with
  exact arithmetic.  It carries the statements that are about exact arithmetic, the worked
  examples, and the statements about the shown texts.
* `F64`, binary64: `NaN`, the two infinite values and the finite binary64 values, every
  operation rounded to nearest, ties to even, with gradual underflow and overflow.  It
  carries the statements about which inputs are accepted and which error is reported.

The functions of the two scripts are embedded over both; the binary64 copies carry the
suffix `64`.

## Text of input fields

The scripts look at the text of an input field in two ways only: is it the empty string
(`value || 0`), and what does `parseFloat` read from it.  `FieldText` records exactly that.
-/

/-! ## Numbers -/

/-- A JavaScript number in the exact model: `NaN`, or a finite value held as an exact
rational.  The operations below do not round; the rounded ones are those of `F64`. -/
inductive JSNum where
  | nan : JSNum
  | num (q : ℚ) : JSNum
  deriving DecidableEq

namespace JSNum

/-- The global `isNaN` on a number. -/
def isNaN : JSNum → Bool
  | nan => true
  | num _ => false

/-- The operator `+`, exact. -/
def add : JSNum → JSNum → JSNum
  | num a, num b => num (a + b)
  | _, _ => nan

/-- The operator `-`, exact. -/
def sub : JSNum → JSNum → JSNum
  | num a, num b => num (a - b)
  | _, _ => nan

/-- The operator `*`, exact. -/
def mul : JSNum → JSNum → JSNum
  | num a, num b => num (a * b)
  | _, _ => nan

/-- The operator `/`, exact.  A zero divisor gives an infinite value or `NaN` in
JavaScript; the model has no infinite values and gives `nan`.  Both calculators divide only
after checking that the divisor is greater than zero. -/
def div : JSNum → JSNum → JSNum
  | num a, num b => if b = 0 then nan else num (a / b)
  | _, _ => nan

instance : Add JSNum := ⟨add⟩
instance : Sub JSNum := ⟨sub⟩
instance : Mul JSNum := ⟨mul⟩
instance : Div JSNum := ⟨div⟩

/-- The comparison `x < y`: false as soon as one side is `NaN`. -/
def lt : JSNum → JSNum → Bool
  | num a, num b => decide (a < b)
  | _, _ => false

/-- The comparison `x <= y`: false as soon as one side is `NaN`. -/
def le : JSNum → JSNum → Bool
  | num a, num b => decide (a ≤ b)
  | _, _ => false

/-- The comparison `x > y`. -/
def gt (x y : JSNum) : Bool := lt y x

/-- The comparison `x >= y`. -/
def ge (x y : JSNum) : Bool := le y x

/-- Nearest natural number to a non-negative rational, the larger one at a tie. -/
def roundHalfUp (r : ℚ) : ℕ := ⌊r + 1 / 2⌋₊

/-- Left padding of a digit string with zeros up to width `w`. -/
def padZeros (w : ℕ) (s : String) : String :=
  String.mk (List.replicate (w - s.length) '0') ++ s

/-- Decimal text of a finite value with `f` digits after the point, as
`Number.prototype.toFixed` builds it: the sign is taken off first, `n` is the integer nearest
to `|q| * 10 ^ f` (the larger at a tie), and the point is put before the last `f` digits
of `n`. -/
def fixedText (q : ℚ) (f : ℕ) : String :=
  let n := roundHalfUp (|q| * 10 ^ f)
  (if q < 0 then "-" else "") ++ toString (n / 10 ^ f) ++
    (if f = 0 then "" else "." ++ padZeros f (toString (n % 10 ^ f)))

/-- The method `toFixed(f)`.  `NaN` prints as "NaN".  (For magnitudes of `10 ^ 21` and more
an engine switches to exponent notation, which depends on the binary representation; the
model prints the digits in full.) -/
def toFixed : JSNum → ℕ → String
  | nan, _ => "NaN"
  | num q, f => fixedText q f

end JSNum

/-! ## Binary64 numbers

The second number model: a JavaScript number as the IEEE 754 binary64 value it is, every
operation rounding its exact result to the nearest representable value, ties to the even
significand, with gradual underflow, overflow to the infinite values, and `NaN`.  The sign
of zero is not kept: it shows only in the sign of a quotient by zero, and neither calculator
divides by zero. -/

/-- A binary64 value: `NaN`, plus or minus infinity, or a finite value given by the rational
it equals. -/
inductive F64 where
  | nan : F64
  | inf (negative : Bool) : F64
  | fin (q : ℚ) : F64
  deriving DecidableEq

namespace F64

/-- Two to the power `k`, for an integer `k`. -/
def pow2 (k : ℤ) : ℚ :=
  if 0 ≤ k then ((2 ^ k.toNat : ℕ) : ℚ) else 1 / ((2 ^ (-k).toNat : ℕ) : ℚ)

/-- Number of binary digits of `n`, by at most `fuel` halvings. -/
def bitsAux : ℕ → ℕ → ℕ
  | 0, _ => 0
  | fuel + 1, n => if n = 0 then 0 else bitsAux fuel (n / 2) + 1

/-- Number of binary digits of `n`. -/
def bits (n : ℕ) : ℕ := bitsAux n n

/-- The binary exponent of a positive rational `a`: the `e` with `2 ^ e ≤ a < 2 ^ (e + 1)`. -/
def exponent (a : ℚ) : ℤ :=
  let e : ℤ := (bits a.num.toNat : ℤ) - (bits a.den : ℤ)
  if a < pow2 e then e - 1 else e

/-- Nearest natural number to a non-negative rational, the even one at a tie. -/
def roundHalfEven (r : ℚ) : ℕ :=
  let f := r.num.toNat / r.den
  let d := r - f
  if d < 1 / 2 then f else if 1 / 2 < d then f + 1 else if f % 2 = 0 then f else f + 1

/-- Rounding of a positive rational to binary64: the spacing of the representable values
around `a` is `2 ^ (e - 52)` with `e` the exponent of `a`, not below -1022; `a` goes to the
nearest multiple of the spacing, and to `none`, which stands for overflow, when that
multiple reaches `2 ^ 1024`. -/
def roundPos (a : ℚ) : Option ℚ :=
  let e := max (exponent a) (-1022)
  let spacing := pow2 (e - 52)
  let v := (roundHalfEven (a / spacing) : ℚ) * spacing
  if pow2 1024 ≤ v then none else some v

/-- Rounding of an exact result to binary64. -/
def round64 (q : ℚ) : F64 :=
  if q = 0 then fin 0
  else if 0 < q then
    match roundPos q with
    | some v => fin v
    | none => inf false
  else
    match roundPos (-q) with
    | some v => fin (-v)
    | none => inf true

/-- The global `isNaN` on a number. -/
def isNaN : F64 → Bool
  | nan => true
  | _ => false

/-- The operator `+` on binary64 numbers. -/
def add : F64 → F64 → F64
  | nan, _ => nan
  | _, nan => nan
  | inf a, inf b => if a = b then inf a else nan
  | inf a, fin _ => inf a
  | fin _, inf b => inf b
  | fin a, fin b => round64 (a + b)

/-- The operator `-` on binary64 numbers. -/
def sub : F64 → F64 → F64
  | nan, _ => nan
  | _, nan => nan
  | inf a, inf b => if a = b then nan else inf a
  | inf a, fin _ => inf a
  | fin _, inf b => inf (!b)
  | fin a, fin b => round64 (a - b)

/-- The operator `*` on binary64 numbers. -/
def mul : F64 → F64 → F64
  | nan, _ => nan
  | _, nan => nan
  | inf a, inf b => inf (a != b)
  | inf a, fin q => if q = 0 then nan else inf (a != decide (q < 0))
  | fin q, inf b => if q = 0 then nan else inf (decide (q < 0) != b)
  | fin a, fin b => round64 (a * b)

/-- The operator `/` on binary64 numbers.  A zero divisor is taken as positive zero. -/
def div : F64 → F64 → F64
  | nan, _ => nan
  | _, nan => nan
  | inf _, inf _ => nan
  | inf a, fin q => inf (a != decide (q < 0))
  | fin _, inf _ => fin 0
  | fin a, fin b =>
    if b = 0 then (if a = 0 then nan else inf (decide (a < 0))) else round64 (a / b)

instance : Add F64 := ⟨add⟩
instance : Sub F64 := ⟨sub⟩
instance : Mul F64 := ⟨mul⟩
instance : Div F64 := ⟨div⟩

/-- The comparison `x < y`: false as soon as one side is `NaN`. -/
def lt : F64 → F64 → Bool
  | nan, _ => false
  | _, nan => false
  | inf a, inf b => a && !b
  | inf a, fin _ => a
  | fin _, inf b => !b
  | fin a, fin b => decide (a < b)

/-- The comparison `x <= y`: false as soon as one side is `NaN`. -/
def le : F64 → F64 → Bool
  | nan, _ => false
  | _, nan => false
  | inf a, inf b => a || !b
  | inf a, fin _ => a
  | fin _, inf b => !b
  | fin a, fin b => decide (a ≤ b)

/-- The comparison `x > y`. -/
def gt (x y : F64) : Bool := lt y x

/-- The comparison `x >= y`. -/
def ge (x y : F64) : Bool := le y x

/-- The value of a decimal text with digits `m` and exponent `e`, as in `5e-324`. -/
def decimal (m : ℤ) (e : ℤ) : ℚ :=
  if 0 ≤ e then (m : ℚ) * ((10 ^ e.toNat : ℕ) : ℚ) else (m : ℚ) / ((10 ^ (-e).toNat : ℕ) : ℚ)

end F64

open JSNum

/-! ## Text of input fields -/

/-- The text held by an input field, as far as the scripts can tell texts apart: the empty
string, or a non-empty string given by what its longest leading decimal literal denotes:
`text (num q)` for a text that denotes the decimal `q`, `text nan` for a text that does not
start with a decimal literal, like "abc".  A text that reads as an infinite value, like
Infinity, is given by a decimal beyond the binary64 range, like 1e999. -/
inductive FieldText where
  | empty : FieldText
  | text (reads : JSNum) : FieldText
  deriving DecidableEq

/-- The global `parseFloat` on the text of a field, exact: the empty string gives `NaN`, a
decimal its value. -/
def parseFloat : FieldText → JSNum
  | .empty => nan
  | .text reads => reads

/-- The global `parseFloat` on the text of a field, binary64: the empty string gives `NaN`,
a decimal the binary64 value nearest to it. -/
def parseFloat64 : FieldText → F64
  | .empty => .nan
  | .text nan => .nan
  | .text (num q) => F64.round64 q

deriving instance DecidableEq for Except

/-! ## The simple calculator (`script.js`) -/

namespace Simple

/-- The three input elements of the page. -/
inductive InputId where
  | fixedCosts
  | pricePerUnit
  | variableCostsPerUnit
  deriving DecidableEq

/-- The part of the document `calculateBreakeven` reads and writes: the `value` of the three
inputs, the `textContent` of the three spans, and which input was focused last. -/
structure Page where
  fixedCosts : FieldText
  pricePerUnit : FieldText
  variableCostsPerUnit : FieldText
  breakevenUnits : String
  breakevenRevenue : String
  errorMessage : String
  focused : Option InputId

/-- Lines 21-52 of `script.js`: validation of the three parsed numbers and the two formulas.
An error carries the message and the input that receives the focus; a success carries
`breakevenUnits` and `breakevenRevenue`, not yet rounded. -/
def breakeven (fixedCosts pricePerUnit variableCostsPerUnit : JSNum) :
    Except (String × InputId) (JSNum × JSNum) :=
  if isNaN fixedCosts || lt fixedCosts (num 0) then
    .error ("Please enter a valid non-negative number for Fixed Costs.", .fixedCosts)
  else if isNaN pricePerUnit || le pricePerUnit (num 0) then
    .error ("Please enter a valid positive number for Selling Price Per Unit.", .pricePerUnit)
  else if isNaN variableCostsPerUnit || lt variableCostsPerUnit (num 0) then
    .error ("Please enter a valid non-negative number for Variable Costs Per Unit.",
      .variableCostsPerUnit)
  else
    let contributionMarginPerUnit := pricePerUnit - variableCostsPerUnit
    if le contributionMarginPerUnit (num 0) then
      .error ("Selling Price Per Unit must be greater than Variable Costs Per Unit to have a positive contribution margin.",
        .pricePerUnit)
    else
      let breakevenUnits := fixedCosts / contributionMarginPerUnit
      let breakevenRevenue := breakevenUnits * pricePerUnit
      .ok (breakevenUnits, breakevenRevenue)

/-- The function `calculateBreakeven` of `script.js` as a transformer of the page: the three
spans are cleared (lines 11-14), the inputs parsed (lines 16-19), and then either the error
message is shown and an input focused, or the two results are shown with two decimals
(lines 54-56). -/
def calculateBreakeven (page : Page) : Page :=
  let cleared := { page with errorMessage := "", breakevenUnits := "", breakevenRevenue := "" }
  let fixedCosts := parseFloat page.fixedCosts
  let pricePerUnit := parseFloat page.pricePerUnit
  let variableCostsPerUnit := parseFloat page.variableCostsPerUnit
  match breakeven fixedCosts pricePerUnit variableCostsPerUnit with
  | .error (message, input) => { cleared with errorMessage := message, focused := some input }
  | .ok (breakevenUnits, breakevenRevenue) =>
    { cleared with
      breakevenUnits := toFixed breakevenUnits 2
      breakevenRevenue := toFixed breakevenRevenue 2 }

/-- The page of the worked example: 1000, 50 and 30 typed in, nothing shown yet. -/
def examplePage : Page :=
  { fixedCosts := .text (num 1000), pricePerUnit := .text (num 50),
    variableCostsPerUnit := .text (num 30),
    breakevenUnits := "", breakevenRevenue := "", errorMessage := "", focused := none }

/-- The page after the worked example was calculated and the price then changed to 20,
below the variable cost: the two results of the earlier run are still shown. -/
def stalePage : Page :=
  { examplePage with
    pricePerUnit := .text (num 20)
    breakevenUnits := "50.00"
    breakevenRevenue := "2500.00" }

/-- Lines 21-52 of `script.js` on binary64 numbers: the same four guards and two formulas
as `breakeven`, every operation rounded as the engine rounds it. -/
def breakeven64 (fixedCosts pricePerUnit variableCostsPerUnit : F64) :
    Except (String × InputId) (F64 × F64) :=
  if F64.isNaN fixedCosts || F64.lt fixedCosts (.fin 0) then
    .error ("Please enter a valid non-negative number for Fixed Costs.", .fixedCosts)
  else if F64.isNaN pricePerUnit || F64.le pricePerUnit (.fin 0) then
    .error ("Please enter a valid positive number for Selling Price Per Unit.", .pricePerUnit)
  else if F64.isNaN variableCostsPerUnit || F64.lt variableCostsPerUnit (.fin 0) then
    .error ("Please enter a valid non-negative number for Variable Costs Per Unit.",
      .variableCostsPerUnit)
  else
    let contributionMarginPerUnit := pricePerUnit - variableCostsPerUnit
    if F64.le contributionMarginPerUnit (.fin 0) then
      .error ("Selling Price Per Unit must be greater than Variable Costs Per Unit to have a positive contribution margin.",
        .pricePerUnit)
    else
      let breakevenUnits := fixedCosts / contributionMarginPerUnit
      let breakevenRevenue := breakevenUnits * pricePerUnit
      .ok (breakevenUnits, breakevenRevenue)

/-- A page with 1000 as fixed costs and the text 1e999 as price and as variable cost; both
read as plus infinity. -/
def infinitePage : Page :=
  { examplePage with
    pricePerUnit := .text (num (F64.decimal 1 999))
    variableCostsPerUnit := .text (num (F64.decimal 1 999)) }

/-- A page with 1000 as fixed costs, a price of 20 and a variable cost of 30. -/
def lowPricePage : Page :=
  { examplePage with pricePerUnit := .text (num 20) }

end Simple

/-! ## The detailed hospitality calculator (`script1.js`) -/

namespace Detailed

/-- The state variables of the component `App` (lines 7-34): the period toggle, the eight
fixed-cost fields, the sales mode with its two fields, the three percentage fields, and the
result and error variables. -/
structure AppState where
  timePeriod : String
  minOperationalStaffCosts : FieldText
  managerPayrollCosts : FieldText
  administrationCosts : FieldText
  marketingCosts : FieldText
  repairsMaintenanceCosts : FieldText
  rentCosts : FieldText
  insuranceCosts : FieldText
  utilitiesCosts : FieldText
  salesInputType : String
  avgSalePricePerGuest : FieldText
  avgNumGuests : FieldText
  costOfSalesPercent : FieldText
  directExpensesPercent : FieldText
  payrollPercent : FieldText
  breakevenPoint : Option String
  breakevenOutputType : String
  breakevenTotalRevenue : Option String
  breakevenWeeklyRevenue : Option String
  error : String

/-- The helper `parseNumber` (line 41), `parseFloat(value || 0)`: the empty string is falsy,
so the number `0` is parsed in its place; any other string is parsed as it is. -/
def parseNumber (value : FieldText) : JSNum :=
  match value with
  | .empty => parseFloat (.text (num 0))
  | .text _ => parseFloat value

/-- Lines 57-74, exact: the sum of the eight parsed fixed-cost fields. -/
def totalFixedCosts (st : AppState) : JSNum :=
  let fc_minOperationalStaff := parseNumber st.minOperationalStaffCosts
  let fc_managerPayroll := parseNumber st.managerPayrollCosts
  let fc_administration := parseNumber st.administrationCosts
  let fc_marketing := parseNumber st.marketingCosts
  let fc_repairsMaintenance := parseNumber st.repairsMaintenanceCosts
  let fc_rent := parseNumber st.rentCosts
  let fc_insurance := parseNumber st.insuranceCosts
  let fc_utilities := parseNumber st.utilitiesCosts
  fc_minOperationalStaff + fc_managerPayroll + fc_administration + fc_marketing +
    fc_repairsMaintenance + fc_rent + fc_insurance + fc_utilities

/-- Lines 83-85 and 95, exact: the sum of the three parsed percentage fields. -/
def totalVariableCostPercent (st : AppState) : JSNum :=
  let vc_costOfSales := parseNumber st.costOfSalesPercent
  let vc_directExpenses := parseNumber st.directExpensesPercent
  let vc_payroll := parseNumber st.payrollPercent
  vc_costOfSales + vc_directExpenses + vc_payroll

/-- Line 88-90 for one percentage: not a number, below 0 or above 100. -/
def invalidPercent (x : JSNum) : Bool :=
  isNaN x || lt x (num 0) || gt x (num 100)

/-- The numbers a successful run computes before rounding them for display. -/
structure Breakeven where
  calculatedBreakevenPoint : JSNum
  outputType : String
  calculatedBreakevenTotalRevenue : JSNum
  weeklyRevenue : JSNum

/-- Lines 155-161: revenue per week, from the period and the total revenue (not rounded). -/
def weeklyRevenue (timePeriod : String) (calculatedBreakevenTotalRevenue : JSNum) : JSNum :=
  if timePeriod = "month" then
    calculatedBreakevenTotalRevenue / num (433 / 100)
  else
    calculatedBreakevenTotalRevenue / num 52

/-- Lines 56-161 of `calculateBreakeven` without the state setters: every `setError(..);
return;` is an `error` with that message, and the end of the function is reached with the
values the setters are given. -/
def breakeven (st : AppState) : Except String Breakeven :=
  let totalFixedCosts := totalFixedCosts st
  if lt totalFixedCosts (num 0) then
    .error "Total Fixed Costs cannot be negative."
  else
    let vc_costOfSales := parseNumber st.costOfSalesPercent
    let vc_directExpenses := parseNumber st.directExpensesPercent
    let vc_payroll := parseNumber st.payrollPercent
    if invalidPercent vc_costOfSales || invalidPercent vc_directExpenses ||
        invalidPercent vc_payroll then
      .error "Please enter valid percentages (0-100) for all Variable Cost fields."
    else
      let totalVariableCostPercent := vc_costOfSales + vc_directExpenses + vc_payroll
      if ge totalVariableCostPercent (num 100) then
        .error "Total Variable Costs Percentage must be less than 100% of the Selling Price for a breakeven point to exist."
      else if st.salesInputType = "perGuest" then
        let sp := parseNumber st.avgSalePricePerGuest
        if isNaN sp || le sp (num 0) then
          .error "Please enter a valid positive number for Average Sale Price Per Guest."
        else
          let vc := sp * (totalVariableCostPercent / num 100)
          let contributionMargin := sp - vc
          if le contributionMargin (num 0) then
            .error "Selling Price Per Guest must be greater than Variable Cost Per Guest to achieve a breakeven point."
          else
            let calculatedBreakevenPoint := totalFixedCosts / contributionMargin
            let calculatedBreakevenTotalRevenue := calculatedBreakevenPoint * sp
            .ok { calculatedBreakevenPoint := calculatedBreakevenPoint
                  outputType := "guests"
                  calculatedBreakevenTotalRevenue := calculatedBreakevenTotalRevenue
                  weeklyRevenue := weeklyRevenue st.timePeriod calculatedBreakevenTotalRevenue }
      else
        let numGuests := parseNumber st.avgNumGuests
        if isNaN numGuests || le numGuests (num 0) then
          .error ("Please enter a valid positive number for Average Number of Guests (" ++
            (if st.timePeriod = "month" then "monthly" else "annually") ++ ").")
        else
          let denominator := numGuests * (num 1 - totalVariableCostPercent / num 100)
          if le denominator (num 0) then
            .error "Cannot calculate breakeven average revenue. Ensure average number of guests is positive and total variable costs are less than 100%."
          else
            let calculatedBreakevenPoint := totalFixedCosts / denominator
            let calculatedBreakevenTotalRevenue := calculatedBreakevenPoint * numGuests
            .ok { calculatedBreakevenPoint := calculatedBreakevenPoint
                  outputType := "revenuePerGuest"
                  calculatedBreakevenTotalRevenue := calculatedBreakevenTotalRevenue
                  weeklyRevenue := weeklyRevenue st.timePeriod calculatedBreakevenTotalRevenue }

/-- The state after lines 50-54: error and results cleared. -/
def cleared (st : AppState) : AppState :=
  { st with
    error := ""
    breakevenPoint := none
    breakevenOutputType := ""
    breakevenTotalRevenue := none
    breakevenWeeklyRevenue := none }

/-- The handler `calculateBreakeven` (lines 48-162) as a transformer of the component state:
error and results are cleared first; then either the error is set, or the four result
variables are set, the three numbers with two decimals. -/
def calculateBreakeven (st : AppState) : AppState :=
  match breakeven st with
  | .error message => { cleared st with error := message }
  | .ok r =>
    { cleared st with
      breakevenPoint := some (toFixed r.calculatedBreakevenPoint 2)
      breakevenOutputType := r.outputType
      breakevenTotalRevenue := some (toFixed r.calculatedBreakevenTotalRevenue 2)
      breakevenWeeklyRevenue := some (toFixed r.weeklyRevenue 2) }

/-- The state of the component when it is first rendered (lines 7-34). -/
def initial : AppState :=
  { timePeriod := "month"
    minOperationalStaffCosts := .empty, managerPayrollCosts := .empty
    administrationCosts := .empty, marketingCosts := .empty
    repairsMaintenanceCosts := .empty, rentCosts := .empty
    insuranceCosts := .empty, utilitiesCosts := .empty
    salesInputType := "perGuest"
    avgSalePricePerGuest := .empty, avgNumGuests := .empty
    costOfSalesPercent := .empty, directExpensesPercent := .empty, payrollPercent := .empty
    breakevenPoint := none, breakevenOutputType := ""
    breakevenTotalRevenue := none, breakevenWeeklyRevenue := none
    error := "" }

/-- Worked example, price per guest, per month: fixed costs 6000 + 4000, percentages
25 + 10 + 5, price per guest 100. -/
def examplePerGuest : AppState :=
  { initial with
    minOperationalStaffCosts := .text (num 6000)
    rentCosts := .text (num 4000)
    costOfSalesPercent := .text (num 25)
    directExpensesPercent := .text (num 10)
    payrollPercent := .text (num 5)
    avgSalePricePerGuest := .text (num 100) }

/-- Worked example, number of guests, per year: fixed costs 70000 + 50000, percentages
30 + 15 + 5, 10000 guests. -/
def exampleNumGuests : AppState :=
  { initial with
    timePeriod := "year"
    salesInputType := "numGuests"
    managerPayrollCosts := .text (num 70000)
    rentCosts := .text (num 50000)
    costOfSalesPercent := .text (num 30)
    directExpensesPercent := .text (num 15)
    payrollPercent := .text (num 5)
    avgNumGuests := .text (num 10000) }

/-- An input with one negative fixed-cost item, a refund of 500 booked under marketing, and
a positive total. -/
def exampleNegativeItem : AppState :=
  { examplePerGuest with marketingCosts := .text (num (-500)) }

/-- An input with the percentages -10, 50 and 20, which sum to 60. -/
def exampleNegativePercent : AppState :=
  { examplePerGuest with
    costOfSalesPercent := .text (num (-10))
    directExpensesPercent := .text (num 50)
    payrollPercent := .text (num 20) }

/-- An input whose fixed-cost items sum to a negative total: 6000 against a rent entry
of -20000. -/
def exampleNegativeTotal : AppState :=
  { examplePerGuest with rentCosts := .text (num (-20000)) }

/-- The state after the price-per-guest example was calculated and the payroll percentage
then changed to 150: the results of the earlier run are still in the state. -/
def exampleStale : AppState :=
  { examplePerGuest with
    payrollPercent := .text (num 150)
    breakevenPoint := some "166.67"
    breakevenOutputType := "guests"
    breakevenTotalRevenue := some "16666.67"
    breakevenWeeklyRevenue := some "3849.11" }

/-- The helper `parseNumber` (line 41) on binary64 numbers. -/
def parseNumber64 (value : FieldText) : F64 :=
  match value with
  | .empty => parseFloat64 (.text (num 0))
  | .text _ => parseFloat64 value

/-- Lines 57-74 on binary64 numbers: the eight parsed fixed-cost fields added from left to
right, each sum rounded. -/
def totalFixedCosts64 (st : AppState) : F64 :=
  let fc_minOperationalStaff := parseNumber64 st.minOperationalStaffCosts
  let fc_managerPayroll := parseNumber64 st.managerPayrollCosts
  let fc_administration := parseNumber64 st.administrationCosts
  let fc_marketing := parseNumber64 st.marketingCosts
  let fc_repairsMaintenance := parseNumber64 st.repairsMaintenanceCosts
  let fc_rent := parseNumber64 st.rentCosts
  let fc_insurance := parseNumber64 st.insuranceCosts
  let fc_utilities := parseNumber64 st.utilitiesCosts
  fc_minOperationalStaff + fc_managerPayroll + fc_administration + fc_marketing +
    fc_repairsMaintenance + fc_rent + fc_insurance + fc_utilities

/-- Line 88-90 for one percentage, on binary64 numbers. -/
def invalidPercent64 (x : F64) : Bool :=
  F64.isNaN x || F64.lt x (.fin 0) || F64.gt x (.fin 100)

/-- The numbers a successful run computes, as binary64 values. -/
structure Breakeven64 where
  calculatedBreakevenPoint : F64
  outputType : String
  calculatedBreakevenTotalRevenue : F64
  weeklyRevenue : F64
  deriving DecidableEq

/-- Lines 155-161 on binary64 numbers; the literal 4.33 is the binary64 value nearest
to 433 / 100. -/
def weeklyRevenue64 (timePeriod : String) (calculatedBreakevenTotalRevenue : F64) : F64 :=
  if timePeriod = "month" then
    calculatedBreakevenTotalRevenue / F64.round64 (433 / 100)
  else
    calculatedBreakevenTotalRevenue / .fin 52

/-- Lines 56-161 of `calculateBreakeven` on binary64 numbers: the same checks, messages and
formulas as `breakeven`, every operation rounded as the engine rounds it. -/
def breakeven64 (st : AppState) : Except String Breakeven64 :=
  let totalFixedCosts := totalFixedCosts64 st
  if F64.lt totalFixedCosts (.fin 0) then
    .error "Total Fixed Costs cannot be negative."
  else
    let vc_costOfSales := parseNumber64 st.costOfSalesPercent
    let vc_directExpenses := parseNumber64 st.directExpensesPercent
    let vc_payroll := parseNumber64 st.payrollPercent
    if invalidPercent64 vc_costOfSales || invalidPercent64 vc_directExpenses ||
        invalidPercent64 vc_payroll then
      .error "Please enter valid percentages (0-100) for all Variable Cost fields."
    else
      let totalVariableCostPercent := vc_costOfSales + vc_directExpenses + vc_payroll
      if F64.ge totalVariableCostPercent (.fin 100) then
        .error "Total Variable Costs Percentage must be less than 100% of the Selling Price for a breakeven point to exist."
      else if st.salesInputType = "perGuest" then
        let sp := parseNumber64 st.avgSalePricePerGuest
        if F64.isNaN sp || F64.le sp (.fin 0) then
          .error "Please enter a valid positive number for Average Sale Price Per Guest."
        else
          let vc := sp * (totalVariableCostPercent / .fin 100)
          let contributionMargin := sp - vc
          if F64.le contributionMargin (.fin 0) then
            .error "Selling Price Per Guest must be greater than Variable Cost Per Guest to achieve a breakeven point."
          else
            let calculatedBreakevenPoint := totalFixedCosts / contributionMargin
            let calculatedBreakevenTotalRevenue := calculatedBreakevenPoint * sp
            .ok { calculatedBreakevenPoint := calculatedBreakevenPoint
                  outputType := "guests"
                  calculatedBreakevenTotalRevenue := calculatedBreakevenTotalRevenue
                  weeklyRevenue :=
                    weeklyRevenue64 st.timePeriod calculatedBreakevenTotalRevenue }
      else
        let numGuests := parseNumber64 st.avgNumGuests
        if F64.isNaN numGuests || F64.le numGuests (.fin 0) then
          .error ("Please enter a valid positive number for Average Number of Guests (" ++
            (if st.timePeriod = "month" then "monthly" else "annually") ++ ").")
        else
          let denominator := numGuests * (.fin 1 - totalVariableCostPercent / .fin 100)
          if F64.le denominator (.fin 0) then
            .error "Cannot calculate breakeven average revenue. Ensure average number of guests is positive and total variable costs are less than 100%."
          else
            let calculatedBreakevenPoint := totalFixedCosts / denominator
            let calculatedBreakevenTotalRevenue := calculatedBreakevenPoint * numGuests
            .ok { calculatedBreakevenPoint := calculatedBreakevenPoint
                  outputType := "revenuePerGuest"
                  calculatedBreakevenTotalRevenue := calculatedBreakevenTotalRevenue
                  weeklyRevenue :=
                    weeklyRevenue64 st.timePeriod calculatedBreakevenTotalRevenue }

/-- The range test of the specification for one percentage: it lies in [0, 100]. -/
def inPercentRange64 (x : F64) : Bool :=
  F64.ge x (.fin 0) && F64.le x (.fin 100)

/-- The validation of the detailed calculator as a list of checks tried in this order, the
first one that fails giving the error, `none` when all pass.  (1) the sum of the fixed costs
is negative; (2) some percentage is outside [0, 100]; (3) the sum of the percentages is 100
or more; (4) the sales value of the selected mode is not positive; (5) the contribution
margin of price-per-guest mode, or the denominator of guest-count mode, is zero or less.
The field of the mode that is not selected is not looked at. -/
def firstFailingCheck64 (st : AppState) : Option String :=
  let F := parseNumber64 st.minOperationalStaffCosts + parseNumber64 st.managerPayrollCosts +
    parseNumber64 st.administrationCosts + parseNumber64 st.marketingCosts +
    parseNumber64 st.repairsMaintenanceCosts + parseNumber64 st.rentCosts +
    parseNumber64 st.insuranceCosts + parseNumber64 st.utilitiesCosts
  let p := parseNumber64 st.costOfSalesPercent + parseNumber64 st.directExpensesPercent +
    parseNumber64 st.payrollPercent
  if F64.lt F (.fin 0) then
    some "Total Fixed Costs cannot be negative."
  else if !(inPercentRange64 (parseNumber64 st.costOfSalesPercent) &&
      inPercentRange64 (parseNumber64 st.directExpensesPercent) &&
      inPercentRange64 (parseNumber64 st.payrollPercent)) then
    some "Please enter valid percentages (0-100) for all Variable Cost fields."
  else if F64.ge p (.fin 100) then
    some "Total Variable Costs Percentage must be less than 100% of the Selling Price for a breakeven point to exist."
  else if st.salesInputType = "perGuest" then
    let s := parseNumber64 st.avgSalePricePerGuest
    if !(F64.gt s (.fin 0)) then
      some "Please enter a valid positive number for Average Sale Price Per Guest."
    else if F64.le (s - s * (p / .fin 100)) (.fin 0) then
      some "Selling Price Per Guest must be greater than Variable Cost Per Guest to achieve a breakeven point."
    else
      none
  else
    let n := parseNumber64 st.avgNumGuests
    if !(F64.gt n (.fin 0)) then
      some ("Please enter a valid positive number for Average Number of Guests (" ++
        (if st.timePeriod = "month" then "monthly" else "annually") ++ ").")
    else if F64.le (n * (.fin 1 - p / .fin 100)) (.fin 0) then
      some "Cannot calculate breakeven average revenue. Ensure average number of guests is positive and total variable costs are less than 100%."
    else
      none

/-- An input that fails two checks at once: the fixed costs sum to -14000 and the payroll
percentage is 150. -/
def exampleTwoFailures : AppState :=
  { exampleNegativeTotal with payrollPercent := .text (num 150) }

/-- Price-per-guest mode with 60 percent cost of sales and the text 5e-324 as price, which
reads as the smallest positive binary64 value. -/
def exampleTinyPrice : AppState :=
  { initial with
    costOfSalesPercent := .text (num 60)
    avgSalePricePerGuest := .text (num (F64.decimal 5 (-324))) }

/-- Guest-count mode with 50 percent cost of sales and the text 5e-324 as guest count. -/
def exampleTinyGuests : AppState :=
  { initial with
    salesInputType := "numGuests"
    costOfSalesPercent := .text (num 50)
    avgNumGuests := .text (num (F64.decimal 5 (-324))) }

/-- Fixed-cost items 1e16, -1 and -1e16, whose exact sum is -1. -/
def exampleAbsorbedItem : AppState :=
  { examplePerGuest with
    minOperationalStaffCosts := .text (num (F64.decimal 1 16))
    managerPayrollCosts := .text (num (-1))
    administrationCosts := .text (num (-(F64.decimal 1 16)))
    rentCosts := .empty }

/-- The price-per-guest example turned around: guest-count mode with the breakeven point of
the price-per-guest run, 166.66666666666666, typed in as the guest count. -/
def exampleTurnedAround : AppState :=
  { examplePerGuest with
    salesInputType := "numGuests"
    avgNumGuests := .text (num (F64.decimal 16666666666666666 (-14))) }

/-- Price-per-guest mode with fixed costs of 6000, percentages 25 + 10 + 5 and a price
of 100; the breakeven point is 100 guests. -/
def exampleWholeGuests : AppState :=
  { examplePerGuest with minOperationalStaffCosts := .text (num 2000) }

/-- The input `exampleWholeGuests` turned around: guest-count mode with 100 guests. -/
def exampleWholeGuestsTurned : AppState :=
  { exampleWholeGuests with
    salesInputType := "numGuests"
    avgNumGuests := .text (num 100) }

/-- Price-per-guest mode, per month, with all eight fixed-cost fields filled, 1000 + 2000 +
500 + 1500 + 2500 + 1200 + 800 + 500 = 10000, percentages 25 + 10 + 5 and a price of 100. -/
def exampleEightItems : AppState :=
  { initial with
    minOperationalStaffCosts := .text (num 1000)
    managerPayrollCosts := .text (num 2000)
    administrationCosts := .text (num 500)
    marketingCosts := .text (num 1500)
    repairsMaintenanceCosts := .text (num 2500)
    rentCosts := .text (num 1200)
    insuranceCosts := .text (num 800)
    utilitiesCosts := .text (num 500)
    costOfSalesPercent := .text (num 25)
    directExpensesPercent := .text (num 10)
    payrollPercent := .text (num 5)
    avgSalePricePerGuest := .text (num 100) }

/-- Guest-count mode, per year, with all eight fixed-cost fields filled, 10000 + 20000 +
5000 + 15000 + 25000 + 30000 + 7000 + 8000 = 120000, percentages 30 + 15 + 5 and
10000 guests. -/
def exampleEightItemsGuests : AppState :=
  { initial with
    timePeriod := "year"
    salesInputType := "numGuests"
    minOperationalStaffCosts := .text (num 10000)
    managerPayrollCosts := .text (num 20000)
    administrationCosts := .text (num 5000)
    marketingCosts := .text (num 15000)
    repairsMaintenanceCosts := .text (num 25000)
    rentCosts := .text (num 30000)
    insuranceCosts := .text (num 7000)
    utilitiesCosts := .text (num 8000)
    costOfSalesPercent := .text (num 30)
    directExpensesPercent := .text (num 15)
    payrollPercent := .text (num 5)
    avgNumGuests := .text (num 10000) }

end Detailed

/-! ## Basic facts about numbers -/

namespace JSNum

@[simp]
theorem num_add_num (a b : ℚ) : num a + num b = num (a + b) := rfl

@[simp]
theorem num_sub_num (a b : ℚ) : num a - num b = num (a - b) := rfl

@[simp]
theorem num_mul_num (a b : ℚ) : num a * num b = num (a * b) := rfl

@[simp]
theorem num_div_num (a b : ℚ) : num a / num b = if b = 0 then nan else num (a / b) := rfl

@[simp]
theorem nan_add (x : JSNum) : nan + x = nan := rfl

@[simp]
theorem add_nan (x : JSNum) : x + nan = nan := by cases x <;> rfl

@[simp]
theorem nan_sub (x : JSNum) : nan - x = nan := rfl

@[simp]
theorem sub_nan (x : JSNum) : x - nan = nan := by cases x <;> rfl

@[simp]
theorem nan_mul (x : JSNum) : nan * x = nan := rfl

@[simp]
theorem mul_nan (x : JSNum) : x * nan = nan := by cases x <;> rfl

@[simp]
theorem nan_div (x : JSNum) : nan / x = nan := rfl

@[simp]
theorem div_nan (x : JSNum) : x / nan = nan := by cases x <;> rfl

@[simp]
theorem isNaN_nan : isNaN nan = true := rfl

@[simp]
theorem isNaN_num (a : ℚ) : isNaN (num a) = false := rfl

@[simp]
theorem lt_num_num (a b : ℚ) : lt (num a) (num b) = decide (a < b) := rfl

@[simp]
theorem le_num_num (a b : ℚ) : le (num a) (num b) = decide (a ≤ b) := rfl

@[simp]
theorem gt_num_num (a b : ℚ) : gt (num a) (num b) = decide (b < a) := rfl

@[simp]
theorem ge_num_num (a b : ℚ) : ge (num a) (num b) = decide (b ≤ a) := rfl

@[simp]
theorem nan_lt (x : JSNum) : lt nan x = false := rfl

@[simp]
theorem lt_nan (x : JSNum) : lt x nan = false := by cases x <;> rfl

@[simp]
theorem nan_le (x : JSNum) : le nan x = false := rfl

@[simp]
theorem le_nan (x : JSNum) : le x nan = false := by cases x <;> rfl

@[simp]
theorem nan_gt (x : JSNum) : gt nan x = false := by cases x <;> rfl

@[simp]
theorem gt_nan (x : JSNum) : gt x nan = false := rfl

@[simp]
theorem nan_ge (x : JSNum) : ge nan x = false := by cases x <;> rfl

@[simp]
theorem ge_nan (x : JSNum) : ge x nan = false := rfl

/-- Rounding a fraction of naturals to the nearest natural is one natural division. -/
theorem roundHalfUp_div (a b : ℕ) (hb : 0 < b) :
    roundHalfUp ((a : ℚ) / b) = (2 * a + b) / (2 * b) := by
  unfold roundHalfUp
  have hb0 : (b : ℚ) ≠ 0 := by exact_mod_cast hb.ne.symm
  have key : (a : ℚ) / b + 1 / 2 = ((2 * a + b : ℕ) : ℚ) / ((2 * b : ℕ) : ℚ) := by
    push_cast
    field_simp
    ring
  rw [key, Nat.floor_div_eq_div]

/-- Two-decimal text of a non-negative value whose hundredfold is the fraction `a / b`. -/
theorem toFixed_two_of_ratio (q : ℚ) (a b : ℕ) (hq : 0 ≤ q) (hb : 0 < b)
    (h : q * 100 = (a : ℚ) / b) :
    toFixed (num q) 2 =
      toString ((2 * a + b) / (2 * b) / 100) ++
        ("." ++ padZeros 2 (toString ((2 * a + b) / (2 * b) % 100))) := by
  have habs : |q| * 10 ^ 2 = (a : ℚ) / b := by rw [abs_of_nonneg hq, ← h]; norm_num
  have hneg : ¬ q < 0 := not_lt.mpr hq
  simp only [toFixed, fixedText, habs, roundHalfUp_div a b hb, hneg, if_false]
  simp

end JSNum

/-! ## The simple calculator: lemmas -/

namespace Simple

/-- The validation of `script.js` fails exactly on the four conditions it tests. -/
theorem page_error_iff (F p v : JSNum) :
    (∃ e, breakeven F p v = .error e) ↔
      ((isNaN F = true ∨ lt F (num 0) = true) ∨ (isNaN p = true ∨ le p (num 0) = true) ∨
        (isNaN v = true ∨ lt v (num 0) = true) ∨ le (p - v) (num 0) = true) := by
  rcases F with _ | F
  · simp [breakeven]
  rcases p with _ | p
  · by_cases h1 : F < 0 <;> simp [breakeven, h1]
  rcases v with _ | v
  · by_cases h1 : F < 0 <;> by_cases h2 : p ≤ 0 <;> simp [breakeven, h1, h2]
  by_cases h1 : F < 0 <;> by_cases h2 : p ≤ 0 <;> by_cases h3 : v < 0 <;>
    by_cases h4 : p - v ≤ 0 <;> simp [breakeven, h1, h2, h3, h4]

/-- Every error message of `script.js` is a non-empty text. -/
theorem page_message_ne (F p v : JSNum) (e : String × InputId)
    (h : breakeven F p v = .error e) : e.1 ≠ "" := by
  unfold breakeven at h
  split_ifs at h <;> first | (cases h; decide) | skip
  simp only at h
  split_ifs at h
  cases h; decide

/-- The page after a failed validation. -/
theorem page_of_error (page : Page) (e : String × InputId)
    (h : breakeven (parseFloat page.fixedCosts) (parseFloat page.pricePerUnit)
        (parseFloat page.variableCostsPerUnit) = .error e) :
    calculateBreakeven page =
      { page with errorMessage := e.1, breakevenUnits := "", breakevenRevenue := "",
                  focused := some e.2 } := by
  simp only [calculateBreakeven, h]

/-- The page after a successful calculation. -/
theorem page_of_ok (page : Page) (r : JSNum × JSNum)
    (h : breakeven (parseFloat page.fixedCosts) (parseFloat page.pricePerUnit)
        (parseFloat page.variableCostsPerUnit) = .ok r) :
    calculateBreakeven page =
      { page with errorMessage := "", breakevenUnits := toFixed r.1 2,
                  breakevenRevenue := toFixed r.2 2 } := by
  simp only [calculateBreakeven, h]

/-- An error message is shown exactly when the validation fails. -/
theorem page_shows_error_iff (page : Page) :
    (calculateBreakeven page).errorMessage ≠ "" ↔
      ∃ e, breakeven (parseFloat page.fixedCosts) (parseFloat page.pricePerUnit)
        (parseFloat page.variableCostsPerUnit) = .error e := by
  cases h : breakeven (parseFloat page.fixedCosts) (parseFloat page.pricePerUnit)
        (parseFloat page.variableCostsPerUnit) with
  | error e =>
    rw [page_of_error page e h]
    simpa using page_message_ne _ _ _ e h
  | ok r =>
    rw [page_of_ok page r h]
    simp

/-- Whenever an error message is shown, both result spans are empty. -/
theorem page_error_clears (page : Page) (h : (calculateBreakeven page).errorMessage ≠ "") :
    (calculateBreakeven page).breakevenUnits = "" ∧
      (calculateBreakeven page).breakevenRevenue = "" := by
  obtain ⟨e, he⟩ := (page_shows_error_iff page).mp h
  rw [page_of_error page e he]
  exact ⟨rfl, rfl⟩

/-- The two formulas on valid finite inputs. -/
theorem page_valid (F p v : ℚ) (hF0 : 0 ≤ F) (hp0 : 0 < p) (hv0 : 0 ≤ v) (hpv : v < p) :
    breakeven (num F) (num p) (num v) = .ok (num (F / (p - v)), num (F / (p - v) * p)) := by
  have h1 : ¬ F < 0 := not_lt.mpr hF0
  have h2 : ¬ p ≤ 0 := not_le.mpr hp0
  have h3 : ¬ v < 0 := not_lt.mpr hv0
  have h4 : ¬ p - v ≤ 0 := by linarith
  have h5 : p - v ≠ 0 := by intro h; rw [h] at h4; exact h4 le_rfl
  simp [breakeven, h1, h2, h3, h4, h5]

end Simple

/-! ## The detailed calculator: lemmas -/

namespace Detailed

/-- Every error message of `script1.js` is a non-empty text. -/
theorem state_message_ne (st : AppState) (message : String)
    (h : breakeven st = .error message) : message ≠ "" := by
  unfold breakeven at h
  simp only at h
  split_ifs at h <;> (cases h; decide)

/-- The state after a failed run: everything cleared but the error. -/
theorem state_of_error (st : AppState) (message : String)
    (h : breakeven st = .error message) :
    calculateBreakeven st = { cleared st with error := message } := by
  simp only [calculateBreakeven, h]

/-- The state after a successful run: no error, the four results set. -/
theorem state_of_ok (st : AppState) (r : Breakeven) (h : breakeven st = .ok r) :
    calculateBreakeven st =
      { cleared st with
        breakevenPoint := some (toFixed r.calculatedBreakevenPoint 2)
        breakevenOutputType := r.outputType
        breakevenTotalRevenue := some (toFixed r.calculatedBreakevenTotalRevenue 2)
        breakevenWeeklyRevenue := some (toFixed r.weeklyRevenue 2) } := by
  simp only [calculateBreakeven, h]

/-- A percentage is accepted exactly when it is a finite value between 0 and 100. -/
theorem invalidPercent_eq_false_iff (x : JSNum) :
    invalidPercent x = false ↔ ∃ q : ℚ, x = num q ∧ 0 ≤ q ∧ q ≤ 100 := by
  rcases x with _ | q
  · simp [invalidPercent]
  · simp [invalidPercent]

/-- With a percentage sum below 100 a positive price leaves a positive margin. -/
theorem margin_pos (s p : ℚ) (hs : 0 < s) (hp : p < 100) : 0 < s - s * (p / 100) := by
  have h : s * (p / 100) < s * 1 := by
    apply mul_lt_mul_of_pos_left _ hs
    linarith
  linarith

/-- With a percentage sum below 100 a positive guest count leaves a positive denominator. -/
theorem denominator_pos (n p : ℚ) (hn : 0 < n) (hp : p < 100) : 0 < n * (1 - p / 100) := by
  apply mul_pos hn
  linarith

/-- The run in price-per-guest mode on an input that passes every check. -/
theorem perGuest_ok (st : AppState) (c d y s : ℚ)
    (hmode : st.salesInputType = "perGuest")
    (hF : lt (totalFixedCosts st) (num 0) = false)
    (hc : parseNumber st.costOfSalesPercent = num c)
    (hd : parseNumber st.directExpensesPercent = num d)
    (hy : parseNumber st.payrollPercent = num y)
    (hc0 : 0 ≤ c) (hc1 : c ≤ 100) (hd0 : 0 ≤ d) (hd1 : d ≤ 100) (hy0 : 0 ≤ y) (hy1 : y ≤ 100)
    (hsum : c + d + y < 100)
    (hs : parseNumber st.avgSalePricePerGuest = num s) (hs0 : 0 < s) :
    breakeven st = .ok
      { calculatedBreakevenPoint := totalFixedCosts st / num (s - s * (c + d + y) / 100)
        outputType := "guests"
        calculatedBreakevenTotalRevenue :=
          totalFixedCosts st / num (s - s * (c + d + y) / 100) * num s
        weeklyRevenue := weeklyRevenue st.timePeriod
          (totalFixedCosts st / num (s - s * (c + d + y) / 100) * num s) } := by
  have hm := margin_pos s (c + d + y) hs0 hsum
  have e : s - s * (c + d + y) / 100 = s - s * ((c + d + y) / 100) := by ring
  simp [breakeven, hmode, hF, hc, hd, hy, hs, invalidPercent, not_lt.mpr hc0, not_lt.mpr hd0,
    not_lt.mpr hy0, not_lt.mpr hc1, not_lt.mpr hd1, not_lt.mpr hy1, hsum, not_le.mpr hs0,
    not_le.mpr hm, e]

/-- The run in guest-count mode on an input that passes every check. -/
theorem numGuests_ok (st : AppState) (c d y n : ℚ)
    (hmode : st.salesInputType ≠ "perGuest")
    (hF : lt (totalFixedCosts st) (num 0) = false)
    (hc : parseNumber st.costOfSalesPercent = num c)
    (hd : parseNumber st.directExpensesPercent = num d)
    (hy : parseNumber st.payrollPercent = num y)
    (hc0 : 0 ≤ c) (hc1 : c ≤ 100) (hd0 : 0 ≤ d) (hd1 : d ≤ 100) (hy0 : 0 ≤ y) (hy1 : y ≤ 100)
    (hsum : c + d + y < 100)
    (hn : parseNumber st.avgNumGuests = num n) (hn0 : 0 < n) :
    breakeven st = .ok
      { calculatedBreakevenPoint := totalFixedCosts st / num (n * (1 - (c + d + y) / 100))
        outputType := "revenuePerGuest"
        calculatedBreakevenTotalRevenue :=
          totalFixedCosts st / num (n * (1 - (c + d + y) / 100)) * num n
        weeklyRevenue := weeklyRevenue st.timePeriod
          (totalFixedCosts st / num (n * (1 - (c + d + y) / 100)) * num n) } := by
  have hm := denominator_pos n (c + d + y) hn0 hsum
  simp [breakeven, hmode, hF, hc, hd, hy, hn, invalidPercent, not_lt.mpr hc0, not_lt.mpr hd0,
    not_lt.mpr hy0, not_lt.mpr hc1, not_lt.mpr hd1, not_lt.mpr hy1, hsum, not_le.mpr hn0,
    not_le.mpr hm]

/-- A negative total of the fixed costs stops the run at the first check. -/
theorem error_of_total_neg (st : AppState) (h : lt (totalFixedCosts st) (num 0) = true) :
    breakeven st = .error "Total Fixed Costs cannot be negative." := by
  simp [breakeven, h]

/-- A percentage that is not a number between 0 and 100 stops the run. -/
theorem error_of_invalidPercent (st : AppState)
    (h : invalidPercent (parseNumber st.costOfSalesPercent) = true ∨
      invalidPercent (parseNumber st.directExpensesPercent) = true ∨
      invalidPercent (parseNumber st.payrollPercent) = true) :
    ∃ message, breakeven st = .error message := by
  by_cases hF : lt (totalFixedCosts st) (num 0) = true
  · exact ⟨_, error_of_total_neg st hF⟩
  · refine ⟨"Please enter valid percentages (0-100) for all Variable Cost fields.", ?_⟩
    have hor : (invalidPercent (parseNumber st.costOfSalesPercent) ||
        invalidPercent (parseNumber st.directExpensesPercent) ||
        invalidPercent (parseNumber st.payrollPercent)) = true := by
      simpa [Bool.or_eq_true, or_assoc] using h
    simp only [breakeven, hF, hor, if_true, if_false]
    simp

/-- A percentage sum of 100 or more stops the run. -/
theorem error_of_percent_sum (st : AppState)
    (h : ge (totalVariableCostPercent st) (num 100) = true) :
    ∃ message, breakeven st = .error message := by
  by_cases hF : lt (totalFixedCosts st) (num 0) = true
  · exact ⟨_, error_of_total_neg st hF⟩
  by_cases hor : (invalidPercent (parseNumber st.costOfSalesPercent) ||
        invalidPercent (parseNumber st.directExpensesPercent) ||
        invalidPercent (parseNumber st.payrollPercent)) = true
  · refine ⟨"Please enter valid percentages (0-100) for all Variable Cost fields.", ?_⟩
    simp only [breakeven, hF, hor, if_true, if_false]
    simp
  · refine ⟨"Total Variable Costs Percentage must be less than 100% of the Selling Price for a breakeven point to exist.", ?_⟩
    unfold totalVariableCostPercent at h
    simp only [breakeven, hF, hor, h, if_true, if_false]
    simp

/-- The final state of a failed run. -/
theorem state_failed (st : AppState) (h : ∃ message, breakeven st = .error message) :
    (calculateBreakeven st).error ≠ "" ∧
    (calculateBreakeven st).breakevenPoint = none ∧
    (calculateBreakeven st).breakevenOutputType = "" ∧
    (calculateBreakeven st).breakevenTotalRevenue = none ∧
    (calculateBreakeven st).breakevenWeeklyRevenue = none := by
  obtain ⟨message, hm⟩ := h
  rw [state_of_error st message hm]
  exact ⟨state_message_ne st message hm, rfl, rfl, rfl, rfl⟩

end Detailed

/-! ## Claims on the simple calculator -/

namespace Simple

/-- Claim C1: on every input whose three fields parse to numbers with fixedCosts >= 0,
pricePerUnit > 0, variableCostsPerUnit >= 0 and pricePerUnit > variableCostsPerUnit, the
calculation succeeds with breakevenUnits = fixedCosts / (pricePerUnit - variableCostsPerUnit)
and breakevenRevenue = breakevenUnits * pricePerUnit, shows both with two decimals and shows
no error; for 1000, 50 and 30 the values are 50 and 2500, shown as 50.00 and 2500.00. -/
theorem calculateBreakeven_valid_input (page : Page) (F p v : ℚ)
    (hF : parseFloat page.fixedCosts = num F)
    (hp : parseFloat page.pricePerUnit = num p)
    (hv : parseFloat page.variableCostsPerUnit = num v)
    (hF0 : 0 ≤ F) (hp0 : 0 < p) (hv0 : 0 ≤ v) (hpv : v < p) :
    breakeven (parseFloat page.fixedCosts) (parseFloat page.pricePerUnit)
        (parseFloat page.variableCostsPerUnit) =
      .ok (num (F / (p - v)), num (F / (p - v) * p)) ∧
    (calculateBreakeven page).errorMessage = "" ∧
    (calculateBreakeven page).breakevenUnits = toFixed (num (F / (p - v))) 2 ∧
    (calculateBreakeven page).breakevenRevenue = toFixed (num (F / (p - v) * p)) 2 ∧
    (F = 1000 → p = 50 → v = 30 →
      F / (p - v) = 50 ∧ F / (p - v) * p = 2500 ∧
      (calculateBreakeven page).breakevenUnits = "50.00" ∧
      (calculateBreakeven page).breakevenRevenue = "2500.00") := by
  have hb : breakeven (parseFloat page.fixedCosts) (parseFloat page.pricePerUnit)
        (parseFloat page.variableCostsPerUnit) =
      .ok (num (F / (p - v)), num (F / (p - v) * p)) := by
    rw [hF, hp, hv]
    exact page_valid F p v hF0 hp0 hv0 hpv
  have hpage := page_of_ok page _ hb
  refine ⟨hb, ?_, ?_, ?_, ?_⟩
  · rw [hpage]
  · rw [hpage]
  · rw [hpage]
  · intro h1 h2 h3
    subst h1 h2 h3
    have e1 : (1000 : ℚ) / (50 - 30) = 50 := by norm_num
    have e2 : (1000 : ℚ) / (50 - 30) * 50 = 2500 := by norm_num
    refine ⟨e1, e2, ?_, ?_⟩
    · rw [hpage]
      show toFixed (num (1000 / (50 - 30))) 2 = "50.00"
      rw [e1, toFixed_two_of_ratio 50 5000 1 (by norm_num) (by norm_num) (by norm_num)]
      decide
    · rw [hpage]
      show toFixed (num (1000 / (50 - 30) * 50)) 2 = "2500.00"
      rw [e2, toFixed_two_of_ratio 2500 250000 1 (by norm_num) (by norm_num) (by norm_num)]
      decide

/-- The worked example of the simple calculator: 1000, 50 and 30 give 50.00 units and
2500.00 revenue, and no error. -/
theorem calculateBreakeven_valid_input_witness :
    (calculateBreakeven examplePage).errorMessage = "" ∧
    (calculateBreakeven examplePage).breakevenUnits = "50.00" ∧
    (calculateBreakeven examplePage).breakevenRevenue = "2500.00" :=
  have h := calculateBreakeven_valid_input examplePage 1000 50 30 rfl rfl rfl
    (by norm_num) (by norm_num) (by norm_num) (by norm_num)
  ⟨h.2.1, (h.2.2.2.2 rfl rfl rfl).2.2.1, (h.2.2.2.2 rfl rfl rfl).2.2.2⟩

end Simple

/-! ## Claims on the detailed calculator -/

namespace Detailed

/-- Claim C5: for every successful run, in either sales mode, weeklyRevenue is the total
revenue before rounding divided by 4.33 when the period is month and divided by 52 when the
period is year; the state shows that quotient with two decimals, next to the total revenue
rounded on its own. -/
theorem weeklyRevenue_unrounded (st : AppState) (r : Breakeven) (h : breakeven st = .ok r) :
    (st.timePeriod = "month" →
      r.weeklyRevenue = r.calculatedBreakevenTotalRevenue / num (433 / 100) ∧
      ∀ t : ℚ, r.calculatedBreakevenTotalRevenue = num t →
        r.weeklyRevenue = num (t / (433 / 100))) ∧
    (st.timePeriod = "year" →
      r.weeklyRevenue = r.calculatedBreakevenTotalRevenue / num 52 ∧
      ∀ t : ℚ, r.calculatedBreakevenTotalRevenue = num t → r.weeklyRevenue = num (t / 52)) ∧
    (calculateBreakeven st).breakevenWeeklyRevenue = some (toFixed r.weeklyRevenue 2) ∧
    (calculateBreakeven st).breakevenTotalRevenue =
      some (toFixed r.calculatedBreakevenTotalRevenue 2) := by
  have hw : r.weeklyRevenue = weeklyRevenue st.timePeriod r.calculatedBreakevenTotalRevenue := by
    unfold breakeven at h
    simp only at h
    split_ifs at h <;> (cases h; rfl)
  have hst := state_of_ok st r h
  refine ⟨?_, ?_, ?_, ?_⟩
  · intro hm
    have e : r.weeklyRevenue = r.calculatedBreakevenTotalRevenue / num (433 / 100) := by
      rw [hw, weeklyRevenue, if_pos hm]
    refine ⟨e, ?_⟩
    intro t ht
    rw [e, ht]
    norm_num
  · intro hy
    have hne : st.timePeriod ≠ "month" := by rw [hy]; decide
    have e : r.weeklyRevenue = r.calculatedBreakevenTotalRevenue / num 52 := by
      rw [hw, weeklyRevenue, if_neg hne]
    refine ⟨e, ?_⟩
    intro t ht
    rw [e, ht]
    norm_num
  · rw [hst]
  · rw [hst]

/-- The yearly example: a total revenue of 240000 gives 240000 / 52 per week. -/
theorem weeklyRevenue_unrounded_witness :
    ∃ r : Breakeven, breakeven exampleNumGuests = .ok r ∧
      r.calculatedBreakevenTotalRevenue = num 240000 ∧
      r.weeklyRevenue = num (240000 / 52) := by
  have hT : totalFixedCosts exampleNumGuests = num 120000 := by
    norm_num [totalFixedCosts, exampleNumGuests, initial, parseNumber, parseFloat]
  have hok := numGuests_ok exampleNumGuests 30 15 5 10000 (by decide) (by rw [hT]; norm_num)
    rfl rfl rfl (by norm_num) (by norm_num) (by norm_num) (by norm_num) (by norm_num)
    (by norm_num) (by norm_num) rfl (by norm_num)
  have ht : totalFixedCosts exampleNumGuests / num (10000 * (1 - (30 + 15 + 5) / 100)) *
      num 10000 = num 240000 := by
    rw [hT]; norm_num
  exact ⟨_, hok, ht, ((weeklyRevenue_unrounded exampleNumGuests _ hok).2.1 rfl).2 240000 ht⟩

/-- Claim C6: every input whose three percentages sum to 100 or more ends with an error and
no result, in both sales modes and both periods and whatever the fixed costs and the sales
value are. -/
theorem percent_sum_rejected (st : AppState)
    (h : ge (totalVariableCostPercent st) (num 100) = true) :
    (∃ message, breakeven st = .error message) ∧
    (calculateBreakeven st).error ≠ "" ∧
    (calculateBreakeven st).breakevenPoint = none ∧
    (calculateBreakeven st).breakevenOutputType = "" ∧
    (calculateBreakeven st).breakevenTotalRevenue = none ∧
    (calculateBreakeven st).breakevenWeeklyRevenue = none :=
  ⟨error_of_percent_sum st h, state_failed st (error_of_percent_sum st h)⟩

/-- Percentages 50, 30 and 20 sum to 100 and are rejected. -/
theorem percent_sum_rejected_witness :
    ge (totalVariableCostPercent
        { examplePerGuest with
          costOfSalesPercent := .text (num 50)
          directExpensesPercent := .text (num 30)
          payrollPercent := .text (num 20) }) (num 100) = true ∧
    (calculateBreakeven
        { examplePerGuest with
          costOfSalesPercent := .text (num 50)
          directExpensesPercent := .text (num 30)
          payrollPercent := .text (num 20) }).error ≠ "" ∧
    (calculateBreakeven
        { examplePerGuest with
          costOfSalesPercent := .text (num 50)
          directExpensesPercent := .text (num 30)
          payrollPercent := .text (num 20) }).breakevenPoint = none :=
  have hge : ge (totalVariableCostPercent
        { examplePerGuest with
          costOfSalesPercent := .text (num 50)
          directExpensesPercent := .text (num 30)
          payrollPercent := .text (num 20) }) (num 100) = true := by
    norm_num [totalVariableCostPercent, parseNumber, parseFloat]
  ⟨hge, (percent_sum_rejected _ hge).2.1, (percent_sum_rejected _ hge).2.2.1⟩

/-- Claim C7: every input in which one of the three percentages is not a number, is below 0
or is above 100 ends with an error and no result, also when the three percentages sum to a
value in [0, 100), as -10, 50 and 20 do. -/
theorem percent_out_of_range_rejected (st : AppState)
    (h : (isNaN (parseNumber st.costOfSalesPercent) = true ∨
          lt (parseNumber st.costOfSalesPercent) (num 0) = true ∨
          gt (parseNumber st.costOfSalesPercent) (num 100) = true) ∨
        (isNaN (parseNumber st.directExpensesPercent) = true ∨
          lt (parseNumber st.directExpensesPercent) (num 0) = true ∨
          gt (parseNumber st.directExpensesPercent) (num 100) = true) ∨
        (isNaN (parseNumber st.payrollPercent) = true ∨
          lt (parseNumber st.payrollPercent) (num 0) = true ∨
          gt (parseNumber st.payrollPercent) (num 100) = true)) :
    (∃ message, breakeven st = .error message) ∧
    (calculateBreakeven st).error ≠ "" ∧
    (calculateBreakeven st).breakevenPoint = none ∧
    (calculateBreakeven st).breakevenOutputType = "" ∧
    (calculateBreakeven st).breakevenTotalRevenue = none ∧
    (calculateBreakeven st).breakevenWeeklyRevenue = none := by
  have hinv : invalidPercent (parseNumber st.costOfSalesPercent) = true ∨
      invalidPercent (parseNumber st.directExpensesPercent) = true ∨
      invalidPercent (parseNumber st.payrollPercent) = true := by
    simpa [invalidPercent, Bool.or_eq_true, or_assoc] using h
  exact ⟨error_of_invalidPercent st hinv, state_failed st (error_of_invalidPercent st hinv)⟩

/-- The percentages -10, 50 and 20 sum to 60, which is in [0, 100), and are rejected with
the message about valid percentages. -/
theorem percent_out_of_range_rejected_witness :
    totalVariableCostPercent exampleNegativePercent = num 60 ∧
    (calculateBreakeven exampleNegativePercent).error ≠ "" ∧
    (calculateBreakeven exampleNegativePercent).breakevenPoint = none :=
  have hneg : lt (parseNumber exampleNegativePercent.costOfSalesPercent) (num 0) = true := by
    norm_num [exampleNegativePercent, parseNumber, parseFloat]
  ⟨by norm_num [totalVariableCostPercent, exampleNegativePercent, parseNumber, parseFloat],
    (percent_out_of_range_rejected exampleNegativePercent (Or.inl (Or.inr (Or.inl hneg)))).2.1,
    (percent_out_of_range_rejected exampleNegativePercent (Or.inl (Or.inr (Or.inl hneg)))).2.2.1⟩

end Detailed

namespace Detailed

/-- The price-per-guest example of the specification, for any way of entering it: what the
state shows after the run. -/
theorem perGuest_month_shown (st : AppState) (c d y : ℚ)
    (hmode : st.salesInputType = "perGuest") (hperiod : st.timePeriod = "month")
    (hT : totalFixedCosts st = num 10000)
    (hc : parseNumber st.costOfSalesPercent = num c)
    (hd : parseNumber st.directExpensesPercent = num d)
    (hy : parseNumber st.payrollPercent = num y)
    (hc0 : 0 ≤ c) (hc1 : c ≤ 100) (hd0 : 0 ≤ d) (hd1 : d ≤ 100) (hy0 : 0 ≤ y) (hy1 : y ≤ 100)
    (hsum : c + d + y = 40)
    (hs : parseNumber st.avgSalePricePerGuest = num 100) :
    (calculateBreakeven st).breakevenPoint = some "166.67" ∧
    (calculateBreakeven st).breakevenTotalRevenue = some "16666.67" ∧
    (calculateBreakeven st).breakevenWeeklyRevenue = some "3849.11" ∧
    (calculateBreakeven st).breakevenOutputType = "guests" ∧
    (calculateBreakeven st).error = "" := by
  have hok := perGuest_ok st c d y 100 hmode (by rw [hT]; norm_num) hc hd hy hc0 hc1 hd0 hd1
    hy0 hy1 (by rw [hsum]; norm_num) hs (by norm_num)
  have e1 : totalFixedCosts st / num (100 - 100 * (c + d + y) / 100) = num (500 / 3) := by
    rw [hT, hsum]; norm_num
  have e2 : weeklyRevenue st.timePeriod (num (500 / 3) * num 100) = num (5000000 / 1299) := by
    rw [weeklyRevenue, if_pos hperiod]; norm_num
  rw [state_of_ok st _ hok]
  simp only [e1, e2]
  refine ⟨?_, ?_, ?_, trivial, rfl⟩
  · rw [toFixed_two_of_ratio (500 / 3) 50000 3 (by norm_num) (by norm_num) (by norm_num)]
    decide
  · rw [num_mul_num,
      toFixed_two_of_ratio (500 / 3 * 100) 5000000 3 (by norm_num) (by norm_num) (by norm_num)]
    decide
  · rw [toFixed_two_of_ratio (5000000 / 1299) 500000000 1299 (by norm_num) (by norm_num)
      (by norm_num)]
    decide

/-- Claim C8, as amended: with fixed-cost items summing to 10000, percentages summing to 40,
price-per-guest mode with a price of 100 and period month, the margin is 60, the breakeven
point rounded to 2 decimals is 166.67, the total revenue 16666.67 and the weekly revenue
3849.11. -/
theorem perGuest_month_example (st : AppState) (c d y : ℚ)
    (hmode : st.salesInputType = "perGuest") (hperiod : st.timePeriod = "month")
    (hT : totalFixedCosts st = num 10000)
    (hc : parseNumber st.costOfSalesPercent = num c)
    (hd : parseNumber st.directExpensesPercent = num d)
    (hy : parseNumber st.payrollPercent = num y)
    (hc0 : 0 ≤ c) (hc1 : c ≤ 100) (hd0 : 0 ≤ d) (hd1 : d ≤ 100) (hy0 : 0 ≤ y) (hy1 : y ≤ 100)
    (hsum : c + d + y = 40)
    (hs : parseNumber st.avgSalePricePerGuest = num 100) :
    parseNumber st.avgSalePricePerGuest -
        parseNumber st.avgSalePricePerGuest * (totalVariableCostPercent st / num 100) =
      num 60 ∧
    (calculateBreakeven st).breakevenPoint = some "166.67" ∧
    (calculateBreakeven st).breakevenTotalRevenue = some "16666.67" ∧
    (calculateBreakeven st).breakevenWeeklyRevenue = some "3849.11" := by
  obtain ⟨h1, h2, h3, _, _⟩ :=
    perGuest_month_shown st c d y hmode hperiod hT hc hd hy hc0 hc1 hd0 hd1 hy0 hy1 hsum hs
  refine ⟨?_, h1, h2, h3⟩
  rw [hs, totalVariableCostPercent, hc, hd, hy]
  simp only [num_add_num, hsum]
  norm_num

/-- The example entered as 6000 + 4000 fixed costs and 25 + 10 + 5 percent. -/
theorem perGuest_month_example_witness :
    (calculateBreakeven examplePerGuest).breakevenPoint = some "166.67" ∧
    (calculateBreakeven examplePerGuest).breakevenTotalRevenue = some "16666.67" ∧
    (calculateBreakeven examplePerGuest).breakevenWeeklyRevenue = some "3849.11" :=
  (perGuest_month_example examplePerGuest 25 10 5 rfl rfl
    (by norm_num [totalFixedCosts, examplePerGuest, initial, parseNumber, parseFloat])
    rfl rfl rfl (by norm_num) (by norm_num) (by norm_num) (by norm_num) (by norm_num)
    (by norm_num) (by norm_num) rfl).2

/-- The example of claim C8 as the specification words it fails: on fixed costs summing to
10000, percentages summing to 40, price 100, price-per-guest mode and period month, the
weekly revenue shown is 3849.11 and not 3849.81. -/
theorem perGuest_month_weekly_differs :
    totalFixedCosts examplePerGuest = num 10000 ∧
    totalVariableCostPercent examplePerGuest = num 40 ∧
    parseNumber examplePerGuest.avgSalePricePerGuest = num 100 ∧
    examplePerGuest.salesInputType = "perGuest" ∧
    examplePerGuest.timePeriod = "month" ∧
    (calculateBreakeven examplePerGuest).breakevenWeeklyRevenue = some "3849.11" ∧
    (calculateBreakeven examplePerGuest).breakevenWeeklyRevenue ≠ some "3849.81" := by
  have hT : totalFixedCosts examplePerGuest = num 10000 := by
    norm_num [totalFixedCosts, examplePerGuest, initial, parseNumber, parseFloat]
  have hw := (perGuest_month_shown examplePerGuest 25 10 5 rfl rfl hT rfl rfl rfl
    (by norm_num) (by norm_num) (by norm_num) (by norm_num) (by norm_num) (by norm_num)
    (by norm_num) rfl).2.2.1
  refine ⟨hT, ?_, rfl, rfl, rfl, hw, ?_⟩
  · norm_num [totalVariableCostPercent, examplePerGuest, initial, parseNumber, parseFloat]
  · rw [hw]; decide

/-- Claim C9 as the specification words it fails: with the marketing item at -500 and the
other items at 6000 and 4000 the run succeeds and shows a breakeven point of 158.33 guests. -/
theorem negative_item_accepted :
    lt (parseNumber exampleNegativeItem.marketingCosts) (num 0) = true ∧
    (calculateBreakeven exampleNegativeItem).error = "" ∧
    (calculateBreakeven exampleNegativeItem).breakevenPoint = some "158.33" := by
  have hT : totalFixedCosts exampleNegativeItem = num 9500 := by
    norm_num [totalFixedCosts, exampleNegativeItem, examplePerGuest, initial, parseNumber,
      parseFloat]
  have hok := perGuest_ok exampleNegativeItem 25 10 5 100 rfl (by rw [hT]; norm_num)
    rfl rfl rfl (by norm_num) (by norm_num) (by norm_num) (by norm_num) (by norm_num)
    (by norm_num) (by norm_num) rfl (by norm_num)
  have e1 : totalFixedCosts exampleNegativeItem / num (100 - 100 * (25 + 10 + 5) / 100) =
      num (475 / 3) := by
    rw [hT]; norm_num
  rw [state_of_ok exampleNegativeItem _ hok]
  simp only [e1]
  refine ⟨?_, rfl, ?_⟩
  · norm_num [exampleNegativeItem, parseNumber, parseFloat]
  · rw [toFixed_two_of_ratio (475 / 3) 47500 3 (by norm_num) (by norm_num) (by norm_num)]
    decide

end Detailed

/-! ## Both calculators -/

/-- Claim C10: no result survives an error, in both calculators and from every prior state:
if `calculateBreakeven` ends with a non-empty error message then every result field is
cleared (simple: both result texts empty; detailed: the three numbers null and the output
type empty), and if it ends with a result field set then the error message is empty. -/
theorem error_excludes_results :
    (∀ page : Simple.Page,
      ((Simple.calculateBreakeven page).errorMessage ≠ "" →
        (Simple.calculateBreakeven page).breakevenUnits = "" ∧
        (Simple.calculateBreakeven page).breakevenRevenue = "") ∧
      (((Simple.calculateBreakeven page).breakevenUnits ≠ "" ∨
          (Simple.calculateBreakeven page).breakevenRevenue ≠ "") →
        (Simple.calculateBreakeven page).errorMessage = "")) ∧
    (∀ st : Detailed.AppState,
      ((Detailed.calculateBreakeven st).error ≠ "" →
        (Detailed.calculateBreakeven st).breakevenPoint = none ∧
        (Detailed.calculateBreakeven st).breakevenTotalRevenue = none ∧
        (Detailed.calculateBreakeven st).breakevenWeeklyRevenue = none ∧
        (Detailed.calculateBreakeven st).breakevenOutputType = "") ∧
      (((Detailed.calculateBreakeven st).breakevenPoint ≠ none ∨
          (Detailed.calculateBreakeven st).breakevenTotalRevenue ≠ none ∨
          (Detailed.calculateBreakeven st).breakevenWeeklyRevenue ≠ none ∨
          (Detailed.calculateBreakeven st).breakevenOutputType ≠ "") →
        (Detailed.calculateBreakeven st).error = "")) := by
  have simple : ∀ page : Simple.Page, (Simple.calculateBreakeven page).errorMessage ≠ "" →
      (Simple.calculateBreakeven page).breakevenUnits = "" ∧
      (Simple.calculateBreakeven page).breakevenRevenue = "" :=
    fun page h => Simple.page_error_clears page h
  have detailed : ∀ st : Detailed.AppState, (Detailed.calculateBreakeven st).error ≠ "" →
      (Detailed.calculateBreakeven st).breakevenPoint = none ∧
      (Detailed.calculateBreakeven st).breakevenTotalRevenue = none ∧
      (Detailed.calculateBreakeven st).breakevenWeeklyRevenue = none ∧
      (Detailed.calculateBreakeven st).breakevenOutputType = "" := by
    intro st h
    cases hb : Detailed.breakeven st with
    | error message =>
      rw [Detailed.state_of_error st message hb]
      exact ⟨rfl, rfl, rfl, rfl⟩
    | ok r =>
      rw [Detailed.state_of_ok st r hb] at h
      exact absurd rfl h
  refine ⟨fun page => ⟨simple page, ?_⟩, fun st => ⟨detailed st, ?_⟩⟩
  · intro h
    by_contra hne
    obtain ⟨h1, h2⟩ := simple page hne
    rcases h with h | h
    · exact h h1
    · exact h h2
  · intro h
    by_contra hne
    obtain ⟨h1, h2, h3, h4⟩ := detailed st hne
    rcases h with h | h | h | h
    · exact h h1
    · exact h h2
    · exact h h3
    · exact h h4

/-- Results left over from an earlier run are cleared when the next run fails: the simple
page with a price below the variable cost, and the detailed state with a percentage
of 150. -/
theorem error_excludes_results_witness :
    (Simple.stalePage.breakevenUnits = "50.00" ∧
      (Simple.calculateBreakeven Simple.stalePage).errorMessage ≠ "" ∧
      (Simple.calculateBreakeven Simple.stalePage).breakevenUnits = "" ∧
      (Simple.calculateBreakeven Simple.stalePage).breakevenRevenue = "") ∧
    (Detailed.exampleStale.breakevenPoint = some "166.67" ∧
      (Detailed.calculateBreakeven Detailed.exampleStale).error ≠ "" ∧
      (Detailed.calculateBreakeven Detailed.exampleStale).breakevenPoint = none ∧
      (Detailed.calculateBreakeven Detailed.exampleStale).breakevenOutputType = "") := by
  have hs : (Simple.calculateBreakeven Simple.stalePage).errorMessage ≠ "" := by
    apply (Simple.page_shows_error_iff Simple.stalePage).mpr
    apply (Simple.page_error_iff _ _ _).mpr
    right; right; right
    norm_num [Simple.stalePage, Simple.examplePage, parseFloat]
  have hd : (Detailed.calculateBreakeven Detailed.exampleStale).error ≠ "" := by
    apply (Detailed.state_failed Detailed.exampleStale _).1
    apply Detailed.error_of_invalidPercent
    right; right
    norm_num [Detailed.exampleStale, Detailed.invalidPercent, Detailed.parseNumber, parseFloat]
  have h1 := (error_excludes_results.1 Simple.stalePage).1 hs
  have h2 := (error_excludes_results.2 Detailed.exampleStale).1 hd
  exact ⟨⟨rfl, hs, h1.1, h1.2⟩, ⟨rfl, hd, h2.1, h2.2.2.2⟩⟩

/-! ## Inversion of the two calculations -/

namespace Simple

/-- A successful run of `script.js` comes from three finite inputs that pass the four
guards, and its two values are the two formulas. -/
theorem page_ok_cases (F p v : JSNum) (res : JSNum × JSNum) (h : breakeven F p v = .ok res) :
    ∃ f q w : ℚ, F = num f ∧ p = num q ∧ v = num w ∧ 0 ≤ f ∧ 0 < q ∧ 0 ≤ w ∧ w < q ∧
      res = (num (f / (q - w)), num (f / (q - w) * q)) := by
  have hne : ¬ ∃ e, breakeven F p v = .error e := by
    rintro ⟨e, he⟩
    rw [he] at h
    cases h
  rw [page_error_iff] at hne
  rcases F with _ | f
  · simp at hne
  rcases p with _ | q
  · simp at hne
  rcases v with _ | w
  · simp at hne
  simp only [isNaN_num, lt_num_num, le_num_num, num_sub_num, decide_eq_true_eq, false_or,
    Bool.false_eq_true, not_or, not_lt, not_le] at hne
  obtain ⟨h1, h2, h3, h4⟩ := hne
  have hwq : w < q := by linarith
  refine ⟨f, q, w, rfl, rfl, rfl, h1, h2, h3, hwq, ?_⟩
  rw [page_valid f q w h1 h2 h3 hwq] at h
  cases h
  rfl

end Simple

namespace Detailed

/-- A sales value passes its check exactly when it is a finite positive value. -/
theorem sales_check_false_iff (x : JSNum) :
    (isNaN x || le x (num 0)) = false ↔ ∃ q : ℚ, x = num q ∧ 0 < q := by
  rcases x with _ | q
  · simp
  · simp

/-- The outcome of a run, check by check: the first failing check with its message, or a
success in one of the two modes with the values of the formulas. -/
theorem breakeven_cases (st : AppState) :
    (lt (totalFixedCosts st) (num 0) = true ∧
      breakeven st = .error "Total Fixed Costs cannot be negative.") ∨
    (lt (totalFixedCosts st) (num 0) = false ∧
      (invalidPercent (parseNumber st.costOfSalesPercent) ||
        invalidPercent (parseNumber st.directExpensesPercent) ||
        invalidPercent (parseNumber st.payrollPercent)) = true ∧
      breakeven st =
        .error "Please enter valid percentages (0-100) for all Variable Cost fields.") ∨
    (lt (totalFixedCosts st) (num 0) = false ∧
      ∃ c d y : ℚ, parseNumber st.costOfSalesPercent = num c ∧
        parseNumber st.directExpensesPercent = num d ∧ parseNumber st.payrollPercent = num y ∧
        0 ≤ c ∧ c ≤ 100 ∧ 0 ≤ d ∧ d ≤ 100 ∧ 0 ≤ y ∧ y ≤ 100 ∧
        ((100 ≤ c + d + y ∧ breakeven st = .error
            "Total Variable Costs Percentage must be less than 100% of the Selling Price for a breakeven point to exist.") ∨
         (c + d + y < 100 ∧ st.salesInputType = "perGuest" ∧
            (isNaN (parseNumber st.avgSalePricePerGuest) ||
              le (parseNumber st.avgSalePricePerGuest) (num 0)) = true ∧
            breakeven st = .error
              "Please enter a valid positive number for Average Sale Price Per Guest.") ∨
         (c + d + y < 100 ∧ st.salesInputType ≠ "perGuest" ∧
            (isNaN (parseNumber st.avgNumGuests) ||
              le (parseNumber st.avgNumGuests) (num 0)) = true ∧
            breakeven st = .error
              ("Please enter a valid positive number for Average Number of Guests (" ++
                (if st.timePeriod = "month" then "monthly" else "annually") ++ ").")) ∨
         (c + d + y < 100 ∧ st.salesInputType = "perGuest" ∧
            ∃ s : ℚ, parseNumber st.avgSalePricePerGuest = num s ∧ 0 < s ∧
              breakeven st = .ok
                { calculatedBreakevenPoint :=
                    totalFixedCosts st / num (s - s * (c + d + y) / 100)
                  outputType := "guests"
                  calculatedBreakevenTotalRevenue :=
                    totalFixedCosts st / num (s - s * (c + d + y) / 100) * num s
                  weeklyRevenue := weeklyRevenue st.timePeriod
                    (totalFixedCosts st / num (s - s * (c + d + y) / 100) * num s) }) ∨
         (c + d + y < 100 ∧ st.salesInputType ≠ "perGuest" ∧
            ∃ n : ℚ, parseNumber st.avgNumGuests = num n ∧ 0 < n ∧
              breakeven st = .ok
                { calculatedBreakevenPoint :=
                    totalFixedCosts st / num (n * (1 - (c + d + y) / 100))
                  outputType := "revenuePerGuest"
                  calculatedBreakevenTotalRevenue :=
                    totalFixedCosts st / num (n * (1 - (c + d + y) / 100)) * num n
                  weeklyRevenue := weeklyRevenue st.timePeriod
                    (totalFixedCosts st / num (n * (1 - (c + d + y) / 100)) * num n) }))) := by
  by_cases hF : lt (totalFixedCosts st) (num 0) = true
  · exact Or.inl ⟨hF, error_of_total_neg st hF⟩
  have hF0 : lt (totalFixedCosts st) (num 0) = false := by simpa using hF
  by_cases hor : (invalidPercent (parseNumber st.costOfSalesPercent) ||
        invalidPercent (parseNumber st.directExpensesPercent) ||
        invalidPercent (parseNumber st.payrollPercent)) = true
  · refine Or.inr (Or.inl ⟨hF0, hor, ?_⟩)
    simp only [breakeven, hF, hor, if_true, if_false]
    simp
  refine Or.inr (Or.inr ⟨hF0, ?_⟩)
  have hor3 : invalidPercent (parseNumber st.costOfSalesPercent) = false ∧
      invalidPercent (parseNumber st.directExpensesPercent) = false ∧
      invalidPercent (parseNumber st.payrollPercent) = false := by
    simpa [Bool.or_eq_true, not_or, and_assoc] using hor
  obtain ⟨c, hc, hc0, hc1⟩ := (invalidPercent_eq_false_iff _).mp hor3.1
  obtain ⟨d, hd, hd0, hd1⟩ := (invalidPercent_eq_false_iff _).mp hor3.2.1
  obtain ⟨y, hy, hy0, hy1⟩ := (invalidPercent_eq_false_iff _).mp hor3.2.2
  refine ⟨c, d, y, hc, hd, hy, hc0, hc1, hd0, hd1, hy0, hy1, ?_⟩
  by_cases hsum : 100 ≤ c + d + y
  · left
    refine ⟨hsum, ?_⟩
    simp only [breakeven, hF, hor, if_false]
    simp [hc, hd, hy, hsum]
  have hlt : c + d + y < 100 := not_le.mp hsum
  right
  by_cases hmode : st.salesInputType = "perGuest"
  · by_cases hs : (isNaN (parseNumber st.avgSalePricePerGuest) ||
              le (parseNumber st.avgSalePricePerGuest) (num 0)) = true
    · left
      refine ⟨hlt, hmode, hs, ?_⟩
      simp only [breakeven, hF, hor, if_false]
      simp [hc, hd, hy, hsum, hmode, hs]
    · right; right; left
      have hs0 : (isNaN (parseNumber st.avgSalePricePerGuest) ||
              le (parseNumber st.avgSalePricePerGuest) (num 0)) = false := by simpa using hs
      obtain ⟨s, hsv, hspos⟩ := (sales_check_false_iff _).mp hs0
      exact ⟨hlt, hmode, s, hsv, hspos,
        perGuest_ok st c d y s hmode hF0 hc hd hy hc0 hc1 hd0 hd1 hy0 hy1 hlt hsv hspos⟩
  · right
    by_cases hn : (isNaN (parseNumber st.avgNumGuests) ||
              le (parseNumber st.avgNumGuests) (num 0)) = true
    · left
      refine ⟨hlt, hmode, hn, ?_⟩
      simp only [breakeven, hF, hor, if_false]
      simp [hc, hd, hy, hsum, hmode, hn]
    · right; right
      have hn0 : (isNaN (parseNumber st.avgNumGuests) ||
              le (parseNumber st.avgNumGuests) (num 0)) = false := by simpa using hn
      obtain ⟨n, hnv, hnpos⟩ := (sales_check_false_iff _).mp hn0
      exact ⟨hlt, hmode, n, hnv, hnpos,
        numGuests_ok st c d y n hmode hF0 hc hd hy hc0 hc1 hd0 hd1 hy0 hy1 hlt hnv hnpos⟩

end Detailed

namespace Detailed

/-- Total revenue in price-per-guest mode does not depend on the price. -/
theorem perGuest_revenue_eq (f s q : ℚ) (hs : 0 < s) (hq : q < 100) :
    f / (s - s * q / 100) * s = f / (1 - q / 100) := by
  have h1 : (1 - q / 100) ≠ 0 := by
    have : 0 < 1 - q / 100 := by linarith
    exact this.ne.symm
  have e : s - s * q / 100 = s * (1 - q / 100) := by ring
  have hden : s * (1 - q / 100) ≠ 0 := mul_ne_zero hs.ne.symm h1
  rw [e, div_mul_eq_mul_div, div_eq_div_iff hden h1]
  ring

/-- Total revenue in guest-count mode does not depend on the guest count. -/
theorem numGuests_revenue_eq (f n q : ℚ) (hn : 0 < n) (hq : q < 100) :
    f / (n * (1 - q / 100)) * n = f / (1 - q / 100) := by
  have h1 : (1 - q / 100) ≠ 0 := by
    have : 0 < 1 - q / 100 := by linarith
    exact this.ne.symm
  have hden : n * (1 - q / 100) ≠ 0 := mul_ne_zero hn.ne.symm h1
  rw [div_mul_eq_mul_div, div_eq_div_iff hden h1]
  ring

/-- The revenue `f / (1 - q / 100)` covers the fixed costs and its own variable share. -/
theorem revenue_covers_costs (f q : ℚ) (hq : q < 100) :
    f / (1 - q / 100) = f + f / (1 - q / 100) * q / 100 := by
  have h1 : (1 - q / 100) ≠ 0 := by
    have : 0 < 1 - q / 100 := by linarith
    exact this.ne.symm
  have key : f / (1 - q / 100) * (1 - q / 100) = f := div_mul_cancel₀ f h1
  linear_combination key

end Detailed

/-! ## Algebraic claims -/

/-- Claim C11: round trip of the simple calculator: on every valid input with a positive
contribution margin the run succeeds with a finite breakevenUnits, and breakevenUnits *
(pricePerUnit - variableCostsPerUnit) = fixedCosts, exactly, on the value before rounding. -/
theorem units_round_trip (page : Simple.Page) (F p v : ℚ)
    (hF : parseFloat page.fixedCosts = num F)
    (hp : parseFloat page.pricePerUnit = num p)
    (hv : parseFloat page.variableCostsPerUnit = num v)
    (hF0 : 0 ≤ F) (hp0 : 0 < p) (hv0 : 0 ≤ v) (hpv : v < p) :
    ∃ (u : ℚ) (r : JSNum),
      Simple.breakeven (parseFloat page.fixedCosts) (parseFloat page.pricePerUnit)
        (parseFloat page.variableCostsPerUnit) = .ok (num u, r) ∧
      u * (p - v) = F := by
  refine ⟨F / (p - v), num (F / (p - v) * p), ?_, ?_⟩
  · rw [hF, hp, hv]
    exact Simple.page_valid F p v hF0 hp0 hv0 hpv
  · have hm : p - v ≠ 0 := by
      have : 0 < p - v := by linarith
      exact this.ne.symm
    field_simp

/-- On 1000, 50 and 30 the breakeven units times the margin of 20 give back 1000. -/
theorem units_round_trip_witness :
    ∃ (u : ℚ) (r : JSNum),
      Simple.breakeven (parseFloat Simple.examplePage.fixedCosts)
        (parseFloat Simple.examplePage.pricePerUnit)
        (parseFloat Simple.examplePage.variableCostsPerUnit) = .ok (num u, r) ∧
      u * (50 - 30) = 1000 :=
  units_round_trip Simple.examplePage 1000 50 30 rfl rfl rfl
    (by norm_num) (by norm_num) (by norm_num) (by norm_num)

/-- Claim C12: the breakeven point is a point of zero profit.  Every successful simple run
has finite inputs and values with breakevenRevenue = fixedCosts + breakevenUnits *
variableCostsPerUnit; every successful detailed run on a finite total of fixed costs, in
either sales mode, has a finite totalRevenue with totalRevenue = totalFixedCosts +
totalRevenue * totalVariableCostPercent / 100. -/
theorem zero_profit_at_breakeven :
    (∀ (page : Simple.Page) (u r : JSNum),
      Simple.breakeven (parseFloat page.fixedCosts) (parseFloat page.pricePerUnit)
        (parseFloat page.variableCostsPerUnit) = .ok (u, r) →
      ∃ F p v U R : ℚ, parseFloat page.fixedCosts = num F ∧
        parseFloat page.pricePerUnit = num p ∧ parseFloat page.variableCostsPerUnit = num v ∧
        u = num U ∧ r = num R ∧ R = F + U * v) ∧
    (∀ (st : Detailed.AppState) (r : Detailed.Breakeven) (f : ℚ),
      Detailed.breakeven st = .ok r → Detailed.totalFixedCosts st = num f →
      ∃ p t : ℚ, Detailed.totalVariableCostPercent st = num p ∧
        r.calculatedBreakevenTotalRevenue = num t ∧ t = f + t * p / 100) := by
  constructor
  · intro page u r h
    obtain ⟨f, q, w, hf, hq, hw, _, _, _, hwq, hres⟩ := Simple.page_ok_cases _ _ _ _ h
    have hm : q - w ≠ 0 := by
      have : 0 < q - w := by linarith
      exact this.ne.symm
    refine ⟨f, q, w, f / (q - w), f / (q - w) * q, hf, hq, hw, ?_, ?_, ?_⟩
    · exact congrArg Prod.fst hres
    · exact congrArg Prod.snd hres
    · field_simp
      ring
  · intro st r f h hT
    rcases Detailed.breakeven_cases st with ⟨_, he⟩ | ⟨_, _, he⟩ |
      ⟨_, c, d, y, hc, hd, hy, _, _, _, _, _, _, hrest⟩
    · rw [he] at h; cases h
    · rw [he] at h; cases h
    · have hp : Detailed.totalVariableCostPercent st = num (c + d + y) := by
        simp [Detailed.totalVariableCostPercent, hc, hd, hy]
      rcases hrest with ⟨_, he⟩ | ⟨_, _, _, he⟩ | ⟨_, _, _, he⟩ |
        ⟨hlt, _, s, _, hs0, hok⟩ | ⟨hlt, _, n, _, hn0, hok⟩
      · rw [he] at h; cases h
      · rw [he] at h; cases h
      · rw [he] at h; cases h
      · rw [hok] at h
        cases h
        have hm : s - s * (c + d + y) / 100 ≠ 0 := by
          have := Detailed.margin_pos s (c + d + y) hs0 hlt
          have e : s - s * (c + d + y) / 100 = s - s * ((c + d + y) / 100) := by ring
          rw [e]; exact this.ne.symm
        refine ⟨c + d + y, f / (s - s * (c + d + y) / 100) * s, hp, ?_, ?_⟩
        · simp [hT, hm]
        · rw [Detailed.perGuest_revenue_eq f s (c + d + y) hs0 hlt]
          exact Detailed.revenue_covers_costs f (c + d + y) hlt
      · rw [hok] at h
        cases h
        have hm : n * (1 - (c + d + y) / 100) ≠ 0 :=
          (Detailed.denominator_pos n (c + d + y) hn0 hlt).ne.symm
        refine ⟨c + d + y, f / (n * (1 - (c + d + y) / 100)) * n, hp, ?_, ?_⟩
        · simp [hT, hm]
        · rw [Detailed.numGuests_revenue_eq f n (c + d + y) hn0 hlt]
          exact Detailed.revenue_covers_costs f (c + d + y) hlt

/-- The two worked examples: the simple run on 1000, 50 and 30 and the detailed run on
10000, 40 percent and a price of 100 both succeed, and their revenues cover the costs. -/
theorem zero_profit_at_breakeven_witness :
    (∃ u r : JSNum,
      Simple.breakeven (parseFloat Simple.examplePage.fixedCosts)
        (parseFloat Simple.examplePage.pricePerUnit)
        (parseFloat Simple.examplePage.variableCostsPerUnit) = .ok (u, r) ∧
      ∃ F p v U R : ℚ, parseFloat Simple.examplePage.fixedCosts = num F ∧
        parseFloat Simple.examplePage.pricePerUnit = num p ∧
        parseFloat Simple.examplePage.variableCostsPerUnit = num v ∧
        u = num U ∧ r = num R ∧ R = F + U * v) ∧
    (∃ r : Detailed.Breakeven, Detailed.breakeven Detailed.examplePerGuest = .ok r ∧
      ∃ p t : ℚ, Detailed.totalVariableCostPercent Detailed.examplePerGuest = num p ∧
        r.calculatedBreakevenTotalRevenue = num t ∧ t = 10000 + t * p / 100) := by
  have hT : Detailed.totalFixedCosts Detailed.examplePerGuest = num 10000 := by
    norm_num [Detailed.totalFixedCosts, Detailed.examplePerGuest, Detailed.initial,
      Detailed.parseNumber, parseFloat]
  have hok := Detailed.perGuest_ok Detailed.examplePerGuest 25 10 5 100 rfl
    (by rw [hT]; norm_num) rfl rfl rfl (by norm_num) (by norm_num) (by norm_num)
    (by norm_num) (by norm_num) (by norm_num) (by norm_num) rfl (by norm_num)
  have hs := Simple.page_valid 1000 50 30 (by norm_num) (by norm_num) (by norm_num)
    (by norm_num)
  exact ⟨⟨_, _, hs, zero_profit_at_breakeven.1 Simple.examplePage _ _ hs⟩,
    ⟨_, hok, zero_profit_at_breakeven.2 Detailed.examplePerGuest _ 10000 hok hT⟩⟩

/-! ## The domain checks and the two modes, over exact arithmetic -/

namespace Detailed

/-- Claim C15, as amended: over exact rational arithmetic the two domain checks inside the
mode branches cannot fail.  On every input that passed the earlier checks (each percentage
in [0,100], their sum p below 100, sales value positive) the contribution margin
s - s * p / 100 of price-per-guest mode and the denominator n * (1 - p / 100) of guest-count
mode are positive rationals, so with exact arithmetic the comparisons of lines 117 and 140
are false and the divisor is not zero, and on no input is the margin error or the
denominator error the outcome of the exact run. -/
theorem domain_checks_unreachable (st : AppState) :
    (∀ c d y s : ℚ, parseNumber st.costOfSalesPercent = num c →
      parseNumber st.directExpensesPercent = num d → parseNumber st.payrollPercent = num y →
      0 ≤ c → c ≤ 100 → 0 ≤ d → d ≤ 100 → 0 ≤ y → y ≤ 100 → c + d + y < 100 →
      parseNumber st.avgSalePricePerGuest = num s → 0 < s →
      parseNumber st.avgSalePricePerGuest -
          parseNumber st.avgSalePricePerGuest * (totalVariableCostPercent st / num 100) =
        num (s - s * (c + d + y) / 100) ∧
      0 < s - s * (c + d + y) / 100 ∧
      le (parseNumber st.avgSalePricePerGuest -
          parseNumber st.avgSalePricePerGuest * (totalVariableCostPercent st / num 100))
        (num 0) = false) ∧
    (∀ c d y n : ℚ, parseNumber st.costOfSalesPercent = num c →
      parseNumber st.directExpensesPercent = num d → parseNumber st.payrollPercent = num y →
      0 ≤ c → c ≤ 100 → 0 ≤ d → d ≤ 100 → 0 ≤ y → y ≤ 100 → c + d + y < 100 →
      parseNumber st.avgNumGuests = num n → 0 < n →
      parseNumber st.avgNumGuests * (num 1 - totalVariableCostPercent st / num 100) =
        num (n * (1 - (c + d + y) / 100)) ∧
      0 < n * (1 - (c + d + y) / 100) ∧
      le (parseNumber st.avgNumGuests * (num 1 - totalVariableCostPercent st / num 100))
        (num 0) = false) ∧
    breakeven st ≠ .error
      "Selling Price Per Guest must be greater than Variable Cost Per Guest to achieve a breakeven point." ∧
    breakeven st ≠ .error
      "Cannot calculate breakeven average revenue. Ensure average number of guests is positive and total variable costs are less than 100%." ∧
    (calculateBreakeven st).error ≠
      "Selling Price Per Guest must be greater than Variable Cost Per Guest to achieve a breakeven point." ∧
    (calculateBreakeven st).error ≠
      "Cannot calculate breakeven average revenue. Ensure average number of guests is positive and total variable costs are less than 100%." := by
  have hmsg : ∀ message, breakeven st = .error message →
      message ≠ "Selling Price Per Guest must be greater than Variable Cost Per Guest to achieve a breakeven point." ∧
      message ≠ "Cannot calculate breakeven average revenue. Ensure average number of guests is positive and total variable costs are less than 100%." := by
    intro message h
    rcases breakeven_cases st with ⟨_, he⟩ | ⟨_, _, he⟩ |
      ⟨_, c, d, y, _, _, _, _, _, _, _, _, _, hrest⟩
    · rw [he] at h; cases h; exact ⟨by decide, by decide⟩
    · rw [he] at h; cases h; exact ⟨by decide, by decide⟩
    · rcases hrest with ⟨_, he⟩ | ⟨_, _, _, he⟩ | ⟨_, _, _, he⟩ |
        ⟨_, _, s, _, _, hok⟩ | ⟨_, _, n, _, _, hok⟩
      · rw [he] at h; cases h; exact ⟨by decide, by decide⟩
      · rw [he] at h; cases h; exact ⟨by decide, by decide⟩
      · rw [he] at h; cases h
        by_cases hm : st.timePeriod = "month"
        · rw [if_pos hm]; exact ⟨by decide, by decide⟩
        · rw [if_neg hm]; exact ⟨by decide, by decide⟩
      · rw [hok] at h; cases h
      · rw [hok] at h; cases h
  have hstate : ∀ m : String, m ≠ "" → breakeven st ≠ .error m →
      (calculateBreakeven st).error ≠ m := by
    intro m hm hne
    cases hb : breakeven st with
    | error message =>
      rw [state_of_error st message hb]
      intro h
      apply hne
      rw [hb]
      exact congrArg Except.error h
    | ok r =>
      rw [state_of_ok st r hb]
      exact fun h => hm h.symm
  have h1 : breakeven st ≠ .error
      "Selling Price Per Guest must be greater than Variable Cost Per Guest to achieve a breakeven point." :=
    fun h => (hmsg _ h).1 rfl
  have h2 : breakeven st ≠ .error
      "Cannot calculate breakeven average revenue. Ensure average number of guests is positive and total variable costs are less than 100%." :=
    fun h => (hmsg _ h).2 rfl
  refine ⟨?_, ?_, h1, h2, hstate _ (by decide) h1, hstate _ (by decide) h2⟩
  · intro c d y s hc hd hy _ _ _ _ _ _ hsum hs hs0
    have hpos : 0 < s - s * (c + d + y) / 100 := by
      have := margin_pos s (c + d + y) hs0 hsum
      have e : s - s * (c + d + y) / 100 = s - s * ((c + d + y) / 100) := by ring
      rw [e]; exact this
    have hval : parseNumber st.avgSalePricePerGuest -
          parseNumber st.avgSalePricePerGuest * (totalVariableCostPercent st / num 100) =
        num (s - s * (c + d + y) / 100) := by
      rw [hs, totalVariableCostPercent, hc, hd, hy]
      norm_num
      ring
    refine ⟨hval, hpos, ?_⟩
    rw [hval]
    simpa using hpos
  · intro c d y n hc hd hy _ _ _ _ _ _ hsum hn hn0
    have hpos := denominator_pos n (c + d + y) hn0 hsum
    have hval : parseNumber st.avgNumGuests *
          (num 1 - totalVariableCostPercent st / num 100) =
        num (n * (1 - (c + d + y) / 100)) := by
      rw [hn, totalVariableCostPercent, hc, hd, hy]
      norm_num
    refine ⟨hval, hpos, ?_⟩
    rw [hval]
    simpa using hpos

/-- On the price-per-guest example the margin is 60, a positive value. -/
theorem domain_checks_unreachable_witness :
    parseNumber examplePerGuest.avgSalePricePerGuest -
        parseNumber examplePerGuest.avgSalePricePerGuest *
          (totalVariableCostPercent examplePerGuest / num 100) =
      num (100 - 100 * (25 + 10 + 5) / 100) ∧
    (0 : ℚ) < 100 - 100 * (25 + 10 + 5) / 100 :=
  have h := (domain_checks_unreachable examplePerGuest).1 25 10 5 100 rfl rfl rfl
    (by norm_num) (by norm_num) (by norm_num) (by norm_num) (by norm_num) (by norm_num)
    (by norm_num) rfl (by norm_num)
  ⟨h.1, h.2.1⟩

/-- Claim C16, as amended: over exact rational arithmetic the two sales modes are inverse
to each other.  Take a valid input in price-per-guest mode with total fixed costs F > 0,
percentage sum p < 100 and price s > 0; its exact run gives a finite breakeven point g.
Then every input in guest-count mode with the same total of fixed costs, the same
percentages and g as guest count gives the breakeven point s and the same total revenue;
and in both modes the total revenue is F / (1 - p / 100) whatever the sales value. -/
theorem modes_inverse (st st2 : AppState) (c d y s f : ℚ)
    (hmode : st.salesInputType = "perGuest")
    (hT : totalFixedCosts st = num f) (hf : 0 < f)
    (hc : parseNumber st.costOfSalesPercent = num c)
    (hd : parseNumber st.directExpensesPercent = num d)
    (hy : parseNumber st.payrollPercent = num y)
    (hc0 : 0 ≤ c) (hc1 : c ≤ 100) (hd0 : 0 ≤ d) (hd1 : d ≤ 100) (hy0 : 0 ≤ y) (hy1 : y ≤ 100)
    (hsum : c + d + y < 100)
    (hs : parseNumber st.avgSalePricePerGuest = num s) (hs0 : 0 < s)
    (hmode2 : st2.salesInputType = "numGuests")
    (hT2 : totalFixedCosts st2 = totalFixedCosts st)
    (hc2 : parseNumber st2.costOfSalesPercent = parseNumber st.costOfSalesPercent)
    (hd2 : parseNumber st2.directExpensesPercent = parseNumber st.directExpensesPercent)
    (hy2 : parseNumber st2.payrollPercent = parseNumber st.payrollPercent) :
    ∃ (r : Breakeven) (g : ℚ), breakeven st = .ok r ∧ r.calculatedBreakevenPoint = num g ∧
      0 < g ∧
      r.calculatedBreakevenTotalRevenue = num (f / (1 - (c + d + y) / 100)) ∧
      (parseNumber st2.avgNumGuests = num g →
        ∃ r2 : Breakeven, breakeven st2 = .ok r2 ∧
          r2.calculatedBreakevenPoint = num s ∧
          r2.calculatedBreakevenTotalRevenue = r.calculatedBreakevenTotalRevenue) ∧
      (∀ n : ℚ, parseNumber st2.avgNumGuests = num n → 0 < n →
        ∃ r2 : Breakeven, breakeven st2 = .ok r2 ∧
          r2.calculatedBreakevenTotalRevenue = num (f / (1 - (c + d + y) / 100))) := by
  have hF : lt (totalFixedCosts st) (num 0) = false := by
    rw [hT]; simpa using hf.le
  have hok := perGuest_ok st c d y s hmode hF hc hd hy hc0 hc1 hd0 hd1 hy0 hy1 hsum hs hs0
  have hm : 0 < s - s * (c + d + y) / 100 := by
    have := margin_pos s (c + d + y) hs0 hsum
    have e : s - s * (c + d + y) / 100 = s - s * ((c + d + y) / 100) := by ring
    rw [e]; exact this
  have hne2 : st2.salesInputType ≠ "perGuest" := by rw [hmode2]; decide
  have h1 : (0 : ℚ) < 1 - (c + d + y) / 100 := by linarith
  have hnum : ∀ n : ℚ, parseNumber st2.avgNumGuests = num n → 0 < n →
      breakeven st2 = .ok
        { calculatedBreakevenPoint := num (f / (n * (1 - (c + d + y) / 100)))
          outputType := "revenuePerGuest"
          calculatedBreakevenTotalRevenue := num (f / (1 - (c + d + y) / 100))
          weeklyRevenue := weeklyRevenue st2.timePeriod
            (num (f / (1 - (c + d + y) / 100))) } := by
    intro n hn hn0
    have hden := (denominator_pos n (c + d + y) hn0 hsum).ne.symm
    have h := numGuests_ok st2 c d y n hne2 (by rw [hT2]; exact hF) (by rw [hc2]; exact hc)
      (by rw [hd2]; exact hd) (by rw [hy2]; exact hy) hc0 hc1 hd0 hd1 hy0 hy1 hsum hn hn0
    rw [h, hT2, hT]
    simp only [num_div_num, hden, if_false, num_mul_num,
      numGuests_revenue_eq f n (c + d + y) hn0 hsum]
  refine ⟨_, f / (s - s * (c + d + y) / 100), hok, ?_, div_pos hf hm, ?_, ?_, ?_⟩
  · simp [hT, hm.ne.symm]
  · simp only [hT, num_div_num, hm.ne.symm, if_false, num_mul_num,
      perGuest_revenue_eq f s (c + d + y) hs0 hsum]
  · intro hg
    refine ⟨_, hnum _ hg (div_pos hf hm), ?_, ?_⟩
    · show num (f / (f / (s - s * (c + d + y) / 100) * (1 - (c + d + y) / 100))) = num s
      congr 1
      have e : s - s * (c + d + y) / 100 = s * (1 - (c + d + y) / 100) := by ring
      have e2 : f / (s * (1 - (c + d + y) / 100)) * (1 - (c + d + y) / 100) = f / s := by
        rw [div_mul_eq_mul_div, mul_div_mul_right _ _ h1.ne.symm]
      rw [e, e2]
      have hfne : f ≠ 0 := hf.ne.symm
      have hsne : s ≠ 0 := hs0.ne.symm
      field_simp
    · simp only [hT, num_div_num, hm.ne.symm, if_false, num_mul_num,
        perGuest_revenue_eq f s (c + d + y) hs0 hsum]
  · intro n hn hn0
    exact ⟨_, hnum n hn hn0, rfl⟩

end Detailed

/-! ## Binary64 numbers: lemmas -/

namespace F64

/-- A power of two is positive. -/
theorem pow2_pos (k : ℤ) : 0 < pow2 k := by
  unfold pow2
  split_ifs
  · exact_mod_cast Nat.pos_pow_of_pos _ (by norm_num)
  · apply div_pos one_pos
    exact_mod_cast Nat.pos_pow_of_pos _ (by norm_num)

/-- Rounding a positive rational gives a value that is not negative. -/
theorem roundPos_nonneg (a v : ℚ) (h : roundPos a = some v) : 0 ≤ v := by
  unfold roundPos at h
  simp only at h
  split_ifs at h
  cases h
  exact mul_nonneg (Nat.cast_nonneg _) (pow2_pos _).le

/-- Rounding never gives `NaN`. -/
theorem isNaN_round64 (q : ℚ) : isNaN (round64 q) = false := by
  unfold round64
  split_ifs
  · rfl
  · cases roundPos q <;> rfl
  · cases roundPos (-q) <;> rfl

/-- Rounding an exact result that is zero or less gives a value that is zero or less. -/
theorem round64_nonpos (q : ℚ) (hq : q ≤ 0) : le (round64 q) (fin 0) = true := by
  unfold round64
  split_ifs with h0 hpos
  · simp [le]
  · exact absurd hpos (not_lt.mpr hq)
  · cases hr : roundPos (-q) with
    | none => rfl
    | some v =>
      have := roundPos_nonneg _ _ hr
      simp only [le, decide_eq_true_eq]
      linarith

/-- The difference of a finite number and a number not below it is zero or less. -/
theorem sub_le_zero (a : ℚ) (y : F64) (h : le (fin a) y = true) :
    le (fin a - y) (fin 0) = true := by
  rcases y with _ | b | b
  · simp [le] at h
  · rcases b with _ | _
    · rfl
    · simp [le] at h
  · have hab : a - b ≤ 0 := by
      simp only [le, decide_eq_true_eq] at h
      linarith
    exact round64_nonpos _ hab

/-- Not being greater than zero is the test of the sales value in the code. -/
theorem not_gt_zero (x : F64) : (!gt x (fin 0)) = (isNaN x || le x (fin 0)) := by
  rcases x with _ | a | q
  · rfl
  · cases a <;> rfl
  · by_cases h : 0 < q <;> simp [gt, lt, le, isNaN, h, not_le.mpr, not_lt.mp]

end F64

/-! ## Claims settled on binary64 numbers: the simple calculator -/

namespace Simple

/-- The validation of `script.js` on binary64 numbers fails exactly on the four conditions
it tests. -/
theorem page64_error_iff (F p v : F64) :
    (∃ e, breakeven64 F p v = .error e) ↔
      ((F64.isNaN F = true ∨ F64.lt F (.fin 0) = true) ∨
        (F64.isNaN p = true ∨ F64.le p (.fin 0) = true) ∨
        (F64.isNaN v = true ∨ F64.lt v (.fin 0) = true) ∨
        F64.le (p - v) (.fin 0) = true) := by
  unfold breakeven64
  simp only [Bool.or_eq_true]
  by_cases h1 : F64.isNaN F = true ∨ F64.lt F (.fin 0) = true
  · simp [h1]
  by_cases h2 : F64.isNaN p = true ∨ F64.le p (.fin 0) = true
  · simp [h1, h2]
  by_cases h3 : F64.isNaN v = true ∨ F64.lt v (.fin 0) = true
  · simp [h1, h2, h3]
  by_cases h4 : F64.le (p - v) (.fin 0) = true
  · simp [h1, h2, h3, h4]
  · simp [h1, h2, h3, h4]

/-- Claim C2, as amended: on binary64 numbers, for every triple of parsed inputs, the
calculation ends with an error and no result if and only if fixedCosts is NaN or negative,
or pricePerUnit is NaN or not positive, or variableCostsPerUnit is NaN or negative, or
pricePerUnit - variableCostsPerUnit <= 0; so pricePerUnit <= variableCostsPerUnit gives an
error whenever pricePerUnit is not plus infinity, and a negative fixedCosts is rejected
whatever the other two fields are. -/
theorem breakeven64_error_iff (page : Page) :
    ((∃ e, breakeven64 (parseFloat64 page.fixedCosts) (parseFloat64 page.pricePerUnit)
          (parseFloat64 page.variableCostsPerUnit) = .error e) ↔
      ((F64.isNaN (parseFloat64 page.fixedCosts) = true ∨
          F64.lt (parseFloat64 page.fixedCosts) (.fin 0) = true) ∨
        (F64.isNaN (parseFloat64 page.pricePerUnit) = true ∨
          F64.le (parseFloat64 page.pricePerUnit) (.fin 0) = true) ∨
        (F64.isNaN (parseFloat64 page.variableCostsPerUnit) = true ∨
          F64.lt (parseFloat64 page.variableCostsPerUnit) (.fin 0) = true) ∨
        F64.le (parseFloat64 page.pricePerUnit - parseFloat64 page.variableCostsPerUnit)
          (.fin 0) = true)) ∧
    (F64.le (parseFloat64 page.pricePerUnit) (parseFloat64 page.variableCostsPerUnit) = true →
      parseFloat64 page.pricePerUnit ≠ .inf false →
      ∃ e, breakeven64 (parseFloat64 page.fixedCosts) (parseFloat64 page.pricePerUnit)
          (parseFloat64 page.variableCostsPerUnit) = .error e) ∧
    (F64.lt (parseFloat64 page.fixedCosts) (.fin 0) = true →
      ∃ e, breakeven64 (parseFloat64 page.fixedCosts) (parseFloat64 page.pricePerUnit)
          (parseFloat64 page.variableCostsPerUnit) = .error e) := by
  refine ⟨page64_error_iff _ _ _, ?_, ?_⟩
  · intro h hfin
    apply (page64_error_iff _ _ _).mpr
    rcases hp : parseFloat64 page.pricePerUnit with _ | b | a
    · rw [hp] at h
      simp [F64.le] at h
    · rcases b with _ | _
      · exact absurd hp hfin
      · right; left; right
        rfl
    · right; right; right
      rw [hp] at h
      exact F64.sub_le_zero a _ h
  · intro h
    exact (page64_error_iff _ _ _).mpr (Or.inl (Or.inr h))

/-- A price of 20 against a variable cost of 30 is rejected. -/
theorem breakeven64_error_iff_witness :
    ∃ e, breakeven64 (parseFloat64 lowPricePage.fixedCosts)
      (parseFloat64 lowPricePage.pricePerUnit)
      (parseFloat64 lowPricePage.variableCostsPerUnit) = .error e :=
  (breakeven64_error_iff lowPricePage).2.1 (by decide!) (by decide!)

/-- Claim C2 as the specification words it fails: with the text 1e999 as price and as
variable cost both read as plus infinity, so the price is not above the variable cost, yet
no guard fails: the margin is NaN, which is not `<= 0`, and the run ends with NaN results
and no error. -/
theorem infinite_price_accepted :
    parseFloat64 infinitePage.pricePerUnit = .inf false ∧
    parseFloat64 infinitePage.variableCostsPerUnit = .inf false ∧
    F64.le (parseFloat64 infinitePage.pricePerUnit)
      (parseFloat64 infinitePage.variableCostsPerUnit) = true ∧
    breakeven64 (parseFloat64 infinitePage.fixedCosts) (parseFloat64 infinitePage.pricePerUnit)
      (parseFloat64 infinitePage.variableCostsPerUnit) = .ok (.nan, .nan) := by
  decide!

end Simple

/-! ## Claims settled on binary64 numbers: the detailed calculator -/

namespace Detailed

/-- The range test of the specification is the negation of the test of lines 88-90. -/
theorem inPercentRange64_eq (x : F64) : inPercentRange64 x = !invalidPercent64 x := by
  rcases x with _ | a | q
  · rfl
  · cases a <;> rfl
  · by_cases h0 : 0 ≤ q <;> by_cases h1 : q ≤ 100 <;>
      simp [inPercentRange64, invalidPercent64, F64.ge, F64.gt, F64.le, F64.lt, F64.isNaN,
        h0, h1, not_lt.mpr, not_le.mp]

/-- The run in price-per-guest mode, path by path. -/
theorem perGuest64_run (st : AppState) (hmode : st.salesInputType = "perGuest")
    (h1 : F64.lt (totalFixedCosts64 st) (.fin 0) = false)
    (h2 : (invalidPercent64 (parseNumber64 st.costOfSalesPercent) ||
      invalidPercent64 (parseNumber64 st.directExpensesPercent) ||
      invalidPercent64 (parseNumber64 st.payrollPercent)) = false)
    (h3 : F64.ge (parseNumber64 st.costOfSalesPercent +
      parseNumber64 st.directExpensesPercent + parseNumber64 st.payrollPercent)
      (.fin 100) = false)
    (h4 : (F64.isNaN (parseNumber64 st.avgSalePricePerGuest) ||
      F64.le (parseNumber64 st.avgSalePricePerGuest) (.fin 0)) = false) :
    breakeven64 st =
      if F64.le (parseNumber64 st.avgSalePricePerGuest -
          parseNumber64 st.avgSalePricePerGuest *
            ((parseNumber64 st.costOfSalesPercent + parseNumber64 st.directExpensesPercent +
              parseNumber64 st.payrollPercent) / .fin 100)) (.fin 0) = true then
        .error "Selling Price Per Guest must be greater than Variable Cost Per Guest to achieve a breakeven point."
      else
        .ok { calculatedBreakevenPoint := totalFixedCosts64 st /
                (parseNumber64 st.avgSalePricePerGuest -
                  parseNumber64 st.avgSalePricePerGuest *
                    ((parseNumber64 st.costOfSalesPercent +
                      parseNumber64 st.directExpensesPercent +
                      parseNumber64 st.payrollPercent) / .fin 100))
              outputType := "guests"
              calculatedBreakevenTotalRevenue := totalFixedCosts64 st /
                (parseNumber64 st.avgSalePricePerGuest -
                  parseNumber64 st.avgSalePricePerGuest *
                    ((parseNumber64 st.costOfSalesPercent +
                      parseNumber64 st.directExpensesPercent +
                      parseNumber64 st.payrollPercent) / .fin 100)) *
                parseNumber64 st.avgSalePricePerGuest
              weeklyRevenue := weeklyRevenue64 st.timePeriod (totalFixedCosts64 st /
                (parseNumber64 st.avgSalePricePerGuest -
                  parseNumber64 st.avgSalePricePerGuest *
                    ((parseNumber64 st.costOfSalesPercent +
                      parseNumber64 st.directExpensesPercent +
                      parseNumber64 st.payrollPercent) / .fin 100)) *
                parseNumber64 st.avgSalePricePerGuest) } := by
  unfold breakeven64
  simp only [h1, h2, h3, h4, hmode, if_true, if_false, Bool.false_eq_true]

/-- The run in guest-count mode, path by path. -/
theorem numGuests64_run (st : AppState) (hmode : st.salesInputType ≠ "perGuest")
    (h1 : F64.lt (totalFixedCosts64 st) (.fin 0) = false)
    (h2 : (invalidPercent64 (parseNumber64 st.costOfSalesPercent) ||
      invalidPercent64 (parseNumber64 st.directExpensesPercent) ||
      invalidPercent64 (parseNumber64 st.payrollPercent)) = false)
    (h3 : F64.ge (parseNumber64 st.costOfSalesPercent +
      parseNumber64 st.directExpensesPercent + parseNumber64 st.payrollPercent)
      (.fin 100) = false)
    (h4 : (F64.isNaN (parseNumber64 st.avgNumGuests) ||
      F64.le (parseNumber64 st.avgNumGuests) (.fin 0)) = false) :
    breakeven64 st =
      if F64.le (parseNumber64 st.avgNumGuests *
          (.fin 1 - (parseNumber64 st.costOfSalesPercent +
            parseNumber64 st.directExpensesPercent + parseNumber64 st.payrollPercent) /
              .fin 100)) (.fin 0) = true then
        .error "Cannot calculate breakeven average revenue. Ensure average number of guests is positive and total variable costs are less than 100%."
      else
        .ok { calculatedBreakevenPoint := totalFixedCosts64 st /
                (parseNumber64 st.avgNumGuests *
                  (.fin 1 - (parseNumber64 st.costOfSalesPercent +
                    parseNumber64 st.directExpensesPercent +
                    parseNumber64 st.payrollPercent) / .fin 100))
              outputType := "revenuePerGuest"
              calculatedBreakevenTotalRevenue := totalFixedCosts64 st /
                (parseNumber64 st.avgNumGuests *
                  (.fin 1 - (parseNumber64 st.costOfSalesPercent +
                    parseNumber64 st.directExpensesPercent +
                    parseNumber64 st.payrollPercent) / .fin 100)) *
                parseNumber64 st.avgNumGuests
              weeklyRevenue := weeklyRevenue64 st.timePeriod (totalFixedCosts64 st /
                (parseNumber64 st.avgNumGuests *
                  (.fin 1 - (parseNumber64 st.costOfSalesPercent +
                    parseNumber64 st.directExpensesPercent +
                    parseNumber64 st.payrollPercent) / .fin 100)) *
                parseNumber64 st.avgNumGuests) } := by
  unfold breakeven64
  simp only [h1, h2, h3, h4, hmode, if_true, if_false, Bool.false_eq_true]

end Detailed

namespace Detailed

/-- A negative total of the fixed costs stops the binary64 run at the first check. -/
theorem error64_of_total_neg (st : AppState)
    (h : F64.lt (totalFixedCosts64 st) (.fin 0) = true) :
    breakeven64 st = .error "Total Fixed Costs cannot be negative." := by
  simp [breakeven64, h]

/-- The binary64 run and the list of checks agree on every input. -/
theorem breakeven64_first_failure (st : AppState) :
    (∀ message, firstFailingCheck64 st = some message → breakeven64 st = .error message) ∧
    (firstFailingCheck64 st = none → ∃ r, breakeven64 st = .ok r) := by
  by_cases h1 : F64.lt (parseNumber64 st.minOperationalStaffCosts +
      parseNumber64 st.managerPayrollCosts + parseNumber64 st.administrationCosts +
      parseNumber64 st.marketingCosts + parseNumber64 st.repairsMaintenanceCosts +
      parseNumber64 st.rentCosts + parseNumber64 st.insuranceCosts +
      parseNumber64 st.utilitiesCosts) (.fin 0) = true
  · simp [firstFailingCheck64, breakeven64, totalFixedCosts64, h1]
  by_cases h2 : (invalidPercent64 (parseNumber64 st.costOfSalesPercent) ||
      invalidPercent64 (parseNumber64 st.directExpensesPercent) ||
      invalidPercent64 (parseNumber64 st.payrollPercent)) = true
  · have h2' : (!(inPercentRange64 (parseNumber64 st.costOfSalesPercent) &&
        inPercentRange64 (parseNumber64 st.directExpensesPercent) &&
        inPercentRange64 (parseNumber64 st.payrollPercent))) = true := by
      simpa [inPercentRange64_eq, Bool.not_and, Bool.or_assoc] using h2
    simp only [firstFailingCheck64, breakeven64, totalFixedCosts64, h1, h2, h2', if_true, if_false]
    simp
  have h2' : (!(inPercentRange64 (parseNumber64 st.costOfSalesPercent) &&
        inPercentRange64 (parseNumber64 st.directExpensesPercent) &&
        inPercentRange64 (parseNumber64 st.payrollPercent))) = false := by
    simpa [inPercentRange64_eq, Bool.not_and, Bool.or_assoc] using h2
  by_cases h3 : F64.ge (parseNumber64 st.costOfSalesPercent +
      parseNumber64 st.directExpensesPercent + parseNumber64 st.payrollPercent)
      (.fin 100) = true
  · simp only [firstFailingCheck64, breakeven64, totalFixedCosts64, h1, h2, h2', h3, if_true, if_false,
      Bool.false_eq_true]
    simp
  by_cases hmode : st.salesInputType = "perGuest"
  · by_cases h4 : (F64.isNaN (parseNumber64 st.avgSalePricePerGuest) ||
        F64.le (parseNumber64 st.avgSalePricePerGuest) (.fin 0)) = true
    · simp only [firstFailingCheck64, breakeven64, totalFixedCosts64, h1, h2, h2', h3, hmode, h4,
        F64.not_gt_zero, if_true, if_false, Bool.false_eq_true]
      simp
    · by_cases h5 : F64.le (parseNumber64 st.avgSalePricePerGuest -
          parseNumber64 st.avgSalePricePerGuest *
            ((parseNumber64 st.costOfSalesPercent + parseNumber64 st.directExpensesPercent +
              parseNumber64 st.payrollPercent) / .fin 100)) (.fin 0) = true
      · simp only [firstFailingCheck64, breakeven64, totalFixedCosts64, h1, h2, h2', h3, hmode, h4, h5,
          F64.not_gt_zero, if_true, if_false, Bool.false_eq_true]
        simp
      · simp only [firstFailingCheck64, breakeven64, totalFixedCosts64, h1, h2, h2', h3, hmode, h4, h5,
          F64.not_gt_zero, if_true, if_false, Bool.false_eq_true]
        simp
  · by_cases h4 : (F64.isNaN (parseNumber64 st.avgNumGuests) ||
        F64.le (parseNumber64 st.avgNumGuests) (.fin 0)) = true
    · simp only [firstFailingCheck64, breakeven64, totalFixedCosts64, h1, h2, h2', h3, hmode, h4,
        F64.not_gt_zero, if_true, if_false, Bool.false_eq_true]
      simp
    · by_cases h5 : F64.le (parseNumber64 st.avgNumGuests *
          (.fin 1 - (parseNumber64 st.costOfSalesPercent +
            parseNumber64 st.directExpensesPercent + parseNumber64 st.payrollPercent) /
              .fin 100)) (.fin 0) = true
      · simp only [firstFailingCheck64, breakeven64, totalFixedCosts64, h1, h2, h2', h3, hmode, h4, h5,
          F64.not_gt_zero, if_true, if_false, Bool.false_eq_true]
        simp
      · simp only [firstFailingCheck64, breakeven64, totalFixedCosts64, h1, h2, h2', h3, hmode, h4, h5,
          F64.not_gt_zero, if_true, if_false, Bool.false_eq_true]
        simp

end Detailed

namespace Detailed

/-- Claim C3: in price-per-guest mode, with F the sum of the 8 parsed fixed-cost items, p the
sum of the 3 parsed percentages and s the parsed price per guest, an input passes validation
(F not negative, each percentage a number in [0,100], p below 100, s a positive number, and
the margin s - s * (p / 100) not zero or less) exactly when the run succeeds, and the result
then has breakevenPoint = F / (s - s * (p / 100)), totalRevenue = breakevenPoint * s and
output type guests, every operation being the rounded binary64 operation of the code. -/
theorem perGuest_breakeven64 (st : AppState) (F p s : F64)
    (hmode : st.salesInputType = "perGuest")
    (hF : F = parseNumber64 st.minOperationalStaffCosts +
      parseNumber64 st.managerPayrollCosts + parseNumber64 st.administrationCosts +
      parseNumber64 st.marketingCosts + parseNumber64 st.repairsMaintenanceCosts +
      parseNumber64 st.rentCosts + parseNumber64 st.insuranceCosts +
      parseNumber64 st.utilitiesCosts)
    (hp : p = parseNumber64 st.costOfSalesPercent + parseNumber64 st.directExpensesPercent +
      parseNumber64 st.payrollPercent)
    (hs : s = parseNumber64 st.avgSalePricePerGuest) :
    ((F64.lt F (.fin 0) = false ∧
        invalidPercent64 (parseNumber64 st.costOfSalesPercent) = false ∧
        invalidPercent64 (parseNumber64 st.directExpensesPercent) = false ∧
        invalidPercent64 (parseNumber64 st.payrollPercent) = false ∧
        F64.ge p (.fin 100) = false ∧
        (F64.isNaN s || F64.le s (.fin 0)) = false ∧
        F64.le (s - s * (p / .fin 100)) (.fin 0) = false) ↔
      ∃ r, breakeven64 st = .ok r) ∧
    (∀ r, breakeven64 st = .ok r →
      r.calculatedBreakevenPoint = F / (s - s * (p / .fin 100)) ∧
      r.calculatedBreakevenTotalRevenue = r.calculatedBreakevenPoint * s ∧
      r.outputType = "guests") := by
  have hT : totalFixedCosts64 st = F := by rw [hF]; rfl
  by_cases h1 : F64.lt F (.fin 0) = true
  · have he := error64_of_total_neg st (by rw [hT]; exact h1)
    simp [he, h1]
  by_cases h2 : (invalidPercent64 (parseNumber64 st.costOfSalesPercent) ||
      invalidPercent64 (parseNumber64 st.directExpensesPercent) ||
      invalidPercent64 (parseNumber64 st.payrollPercent)) = true
  · have he : breakeven64 st =
        .error "Please enter valid percentages (0-100) for all Variable Cost fields." := by
      simp only [breakeven64, hT, h1, h2, if_true, if_false, Bool.false_eq_true]
    rw [he]
    have h2' := h2
    simp only [Bool.or_eq_true] at h2'
    constructor
    · constructor
      · rintro ⟨_, ha, hb, hc, _⟩
        rw [ha, hb, hc] at h2'
        simp at h2'
      · rintro ⟨r, hr⟩
        cases hr
    · intro r hr
      cases hr
  have h2a : invalidPercent64 (parseNumber64 st.costOfSalesPercent) = false ∧
      invalidPercent64 (parseNumber64 st.directExpensesPercent) = false ∧
      invalidPercent64 (parseNumber64 st.payrollPercent) = false := by
    simpa [Bool.or_eq_true, not_or, and_assoc] using h2
  by_cases h3 : F64.ge p (.fin 100) = true
  · have he : breakeven64 st = .error
        "Total Variable Costs Percentage must be less than 100% of the Selling Price for a breakeven point to exist." := by
      simp only [breakeven64, hT, h1, h2, ← hp, h3, if_true, if_false, Bool.false_eq_true]
    simp [he, h3]
  by_cases h4 : (F64.isNaN s || F64.le s (.fin 0)) = true
  · have he : breakeven64 st =
        .error "Please enter a valid positive number for Average Sale Price Per Guest." := by
      simp only [breakeven64, hT, h1, h2, ← hp, h3, hmode, ← hs, h4, if_true, if_false, Bool.false_eq_true]
    rw [he]
    constructor
    · constructor
      · rintro ⟨_, _, _, _, _, hc, _⟩
        rw [hc] at h4
        cases h4
      · rintro ⟨r, hr⟩
        cases hr
    · intro r hr
      cases hr
  have hrun := perGuest64_run st hmode (by rw [hT]; simpa using h1) (by simpa using h2)
    (by rw [← hp]; simpa using h3) (by rw [← hs]; simpa using h4)
  rw [← hp, ← hs, hT] at hrun
  by_cases h5 : F64.le (s - s * (p / .fin 100)) (.fin 0) = true
  · rw [if_pos h5] at hrun
    simp [hrun, h5]
  · rw [if_neg h5] at hrun
    rw [hrun]
    refine ⟨⟨fun _ => ⟨_, rfl⟩, fun _ => ⟨by simpa using h1, h2a.1, h2a.2.1, h2a.2.2,
      by simpa using h3, by simpa using h4, by simpa using h5⟩⟩, ?_⟩
    intro r hr
    cases hr
    exact ⟨rfl, rfl, rfl⟩

/-- The worked input with all eight fixed-cost fields filled (sum 10000, 25 + 10 + 5
percent, price 100) passes validation and succeeds with the breakeven point 10000 / 60
rounded to binary64. -/
theorem perGuest_breakeven64_witness :
    ∃ r, breakeven64 exampleEightItems = .ok r ∧
      r.calculatedBreakevenPoint = .fin 10000 / (.fin 100 - .fin 100 * (.fin 40 / .fin 100)) ∧
      r.calculatedBreakevenPoint = F64.round64 (10000 / 60) ∧
      r.outputType = "guests" := by
  have h := perGuest_breakeven64 exampleEightItems (.fin 10000) (.fin 40) (.fin 100) rfl
    (by decide!) (by decide!) (by decide!)
  obtain ⟨r, hr⟩ := h.1.mp (by decide!)
  obtain ⟨h1, _, h3⟩ := h.2 r hr
  refine ⟨r, hr, h1, ?_, h3⟩
  rw [h1]
  decide!

/-- Claim C4: in guest-count mode, with F the sum of the 8 parsed fixed-cost items, p the sum
of the 3 parsed percentages and n the parsed guest count, an input passes validation (F not
negative, each percentage a number in [0,100], p below 100, n a positive number, and the
denominator n * (1 - p / 100) not zero or less) exactly when the run succeeds, and the result
then has breakevenPoint = F / (n * (1 - p / 100)), totalRevenue = breakevenPoint * n and
output type revenuePerGuest, every operation being the rounded binary64 operation of the
code; for F = 120000, p = 50 and n = 10000 the denominator is 5000, the breakeven point 24
and the total revenue 240000. -/
theorem numGuests_breakeven64 (st : AppState) (F p n : F64)
    (hmode : st.salesInputType = "numGuests")
    (hF : F = parseNumber64 st.minOperationalStaffCosts +
      parseNumber64 st.managerPayrollCosts + parseNumber64 st.administrationCosts +
      parseNumber64 st.marketingCosts + parseNumber64 st.repairsMaintenanceCosts +
      parseNumber64 st.rentCosts + parseNumber64 st.insuranceCosts +
      parseNumber64 st.utilitiesCosts)
    (hp : p = parseNumber64 st.costOfSalesPercent + parseNumber64 st.directExpensesPercent +
      parseNumber64 st.payrollPercent)
    (hn : n = parseNumber64 st.avgNumGuests) :
    ((F64.lt F (.fin 0) = false ∧
        invalidPercent64 (parseNumber64 st.costOfSalesPercent) = false ∧
        invalidPercent64 (parseNumber64 st.directExpensesPercent) = false ∧
        invalidPercent64 (parseNumber64 st.payrollPercent) = false ∧
        F64.ge p (.fin 100) = false ∧
        (F64.isNaN n || F64.le n (.fin 0)) = false ∧
        F64.le (n * (.fin 1 - p / .fin 100)) (.fin 0) = false) ↔
      ∃ r, breakeven64 st = .ok r) ∧
    (∀ r, breakeven64 st = .ok r →
      r.calculatedBreakevenPoint = F / (n * (.fin 1 - p / .fin 100)) ∧
      r.calculatedBreakevenTotalRevenue = r.calculatedBreakevenPoint * n ∧
      r.outputType = "revenuePerGuest" ∧
      (F = .fin 120000 → p = .fin 50 → n = .fin 10000 →
        n * (.fin 1 - p / .fin 100) = .fin 5000 ∧
        r.calculatedBreakevenPoint = .fin 24 ∧
        r.calculatedBreakevenTotalRevenue = .fin 240000)) := by
  have hne : st.salesInputType ≠ "perGuest" := by rw [hmode]; decide
  have hT : totalFixedCosts64 st = F := by rw [hF]; rfl
  by_cases h1 : F64.lt F (.fin 0) = true
  · have he := error64_of_total_neg st (by rw [hT]; exact h1)
    simp [he, h1]
  by_cases h2 : (invalidPercent64 (parseNumber64 st.costOfSalesPercent) ||
      invalidPercent64 (parseNumber64 st.directExpensesPercent) ||
      invalidPercent64 (parseNumber64 st.payrollPercent)) = true
  · have he : breakeven64 st =
        .error "Please enter valid percentages (0-100) for all Variable Cost fields." := by
      simp only [breakeven64, hT, h1, h2, if_true, if_false, Bool.false_eq_true]
    rw [he]
    have h2' := h2
    simp only [Bool.or_eq_true] at h2'
    constructor
    · constructor
      · rintro ⟨_, ha, hb, hc, _⟩
        rw [ha, hb, hc] at h2'
        simp at h2'
      · rintro ⟨r, hr⟩
        cases hr
    · intro r hr
      cases hr
  have h2a : invalidPercent64 (parseNumber64 st.costOfSalesPercent) = false ∧
      invalidPercent64 (parseNumber64 st.directExpensesPercent) = false ∧
      invalidPercent64 (parseNumber64 st.payrollPercent) = false := by
    simpa [Bool.or_eq_true, not_or, and_assoc] using h2
  by_cases h3 : F64.ge p (.fin 100) = true
  · have he : breakeven64 st = .error
        "Total Variable Costs Percentage must be less than 100% of the Selling Price for a breakeven point to exist." := by
      simp only [breakeven64, hT, h1, h2, ← hp, h3, if_true, if_false, Bool.false_eq_true]
    simp [he, h3]
  by_cases h4 : (F64.isNaN n || F64.le n (.fin 0)) = true
  · have he : breakeven64 st =
        .error ("Please enter a valid positive number for Average Number of Guests (" ++
          (if st.timePeriod = "month" then "monthly" else "annually") ++ ").") := by
      simp only [breakeven64, hT, h1, h2, ← hp, h3, hne, ← hn, h4, if_true, if_false, Bool.false_eq_true]
    rw [he]
    constructor
    · constructor
      · rintro ⟨_, _, _, _, _, hc, _⟩
        rw [hc] at h4
        cases h4
      · rintro ⟨r, hr⟩
        cases hr
    · intro r hr
      cases hr
  have hrun := numGuests64_run st hne (by rw [hT]; simpa using h1) (by simpa using h2)
    (by rw [← hp]; simpa using h3) (by rw [← hn]; simpa using h4)
  rw [← hp, ← hn, hT] at hrun
  by_cases h5 : F64.le (n * (.fin 1 - p / .fin 100)) (.fin 0) = true
  · rw [if_pos h5] at hrun
    simp [hrun, h5]
  · rw [if_neg h5] at hrun
    rw [hrun]
    refine ⟨⟨fun _ => ⟨_, rfl⟩, fun _ => ⟨by simpa using h1, h2a.1, h2a.2.1, h2a.2.2,
      by simpa using h3, by simpa using h4, by simpa using h5⟩⟩, ?_⟩
    intro r hr
    cases hr
    refine ⟨rfl, rfl, rfl, ?_⟩
    intro e1 e2 e3
    have d0 : (F64.fin 10000 * (F64.fin 1 - F64.fin 50 / F64.fin 100) : F64) = .fin 5000 := by
      decide!
    have d1 : (F64.fin 120000 / F64.fin 5000 : F64) = .fin 24 := by decide!
    have d2 : (F64.fin 24 * F64.fin 10000 : F64) = .fin 240000 := by decide!
    rw [e1, e2, e3, d0]
    refine ⟨rfl, ?_, ?_⟩
    · show (F64.fin 120000 / F64.fin 5000 : F64) = .fin 24
      exact d1
    · show (F64.fin 120000 / F64.fin 5000 * F64.fin 10000 : F64) = .fin 240000
      rw [d1, d2]

/-- The worked input with all eight fixed-cost fields filled (sum 120000, 30 + 15 + 5
percent, 10000 guests) passes validation and succeeds with 24 per guest and a total revenue
of 240000. -/
theorem numGuests_breakeven64_witness :
    ∃ r, breakeven64 exampleEightItemsGuests = .ok r ∧
      r.calculatedBreakevenPoint = .fin 24 ∧
      r.calculatedBreakevenTotalRevenue = .fin 240000 ∧
      r.outputType = "revenuePerGuest" := by
  have h := numGuests_breakeven64 exampleEightItemsGuests (.fin 120000) (.fin 50)
    (.fin 10000) rfl (by decide!) (by decide!) (by decide!)
  obtain ⟨r, hr⟩ := h.1.mp (by decide!)
  obtain ⟨_, _, h3, hex⟩ := h.2 r hr
  obtain ⟨_, h5, h6⟩ := hex rfl rfl rfl
  exact ⟨r, hr, h5, h6, h3⟩

end Detailed

namespace Detailed

/-- Claim C9, as amended: a negative total of the fixed costs is always rejected, the total
being the one the code computes, the 8 parsed items added from left to right in binary64:
on every input with that total negative the run ends with the error about total fixed costs
and no result, regardless of the other fields, so every successful result comes from 8
items whose computed total is not negative. -/
theorem negative_total_rejected64 (st : AppState) (F : F64)
    (hF : F = parseNumber64 st.minOperationalStaffCosts +
      parseNumber64 st.managerPayrollCosts + parseNumber64 st.administrationCosts +
      parseNumber64 st.marketingCosts + parseNumber64 st.repairsMaintenanceCosts +
      parseNumber64 st.rentCosts + parseNumber64 st.insuranceCosts +
      parseNumber64 st.utilitiesCosts) :
    (F64.lt F (.fin 0) = true →
      breakeven64 st = .error "Total Fixed Costs cannot be negative.") ∧
    (∀ r, breakeven64 st = .ok r → F64.lt F (.fin 0) = false) := by
  have hT : totalFixedCosts64 st = F := by rw [hF]; rfl
  constructor
  · intro h
    exact error64_of_total_neg st (by rw [hT]; exact h)
  · intro r hr
    by_contra hneg
    have h : F64.lt F (.fin 0) = true := by simpa using hneg
    rw [error64_of_total_neg st (by rw [hT]; exact h)] at hr
    cases hr

/-- Fixed costs of 6000 and -20000 are added to -14000 and rejected. -/
theorem negative_total_rejected64_witness :
    breakeven64 exampleNegativeTotal = .error "Total Fixed Costs cannot be negative." :=
  (negative_total_rejected64 exampleNegativeTotal (.fin (-14000)) (by decide!)).1 (by decide!)

/-- Claim C13, as amended: the validation of the detailed calculator is a linear pipeline
with early exit over five checks: on every input the run fails exactly when one of the
checks (1) sum of fixed costs negative, (2) some percentage outside [0,100], (3) percentage
sum >= 100, (4) sales value of the selected mode not positive, (5) margin or denominator of
the selected mode zero or less fails, and the error reported is that of the first failing
check in this order; a negative total is reported before anything else, and the sales field
of the mode that is not selected has no influence on the run. -/
theorem validation_first_failure64 (st : AppState) :
    (∀ message, breakeven64 st = .error message ↔ firstFailingCheck64 st = some message) ∧
    ((∃ r, breakeven64 st = .ok r) ↔ firstFailingCheck64 st = none) ∧
    (F64.lt (totalFixedCosts64 st) (.fin 0) = true →
      firstFailingCheck64 st = some "Total Fixed Costs cannot be negative." ∧
      breakeven64 st = .error "Total Fixed Costs cannot be negative.") ∧
    (st.salesInputType = "perGuest" →
      ∀ x : FieldText, breakeven64 { st with avgNumGuests := x } = breakeven64 st) ∧
    (st.salesInputType ≠ "perGuest" →
      ∀ x : FieldText, breakeven64 { st with avgSalePricePerGuest := x } = breakeven64 st) := by
  obtain ⟨hsome, hnone⟩ := breakeven64_first_failure st
  refine ⟨?_, ?_, ?_, ?_, ?_⟩
  · intro message
    constructor
    · intro h
      cases hf : firstFailingCheck64 st with
      | none =>
        obtain ⟨r, hr⟩ := hnone hf
        rw [hr] at h
        cases h
      | some m =>
        have := hsome m hf
        rw [this] at h
        cases h
        rfl
    · exact hsome message
  · constructor
    · rintro ⟨r, hr⟩
      cases hf : firstFailingCheck64 st with
      | none => rfl
      | some m =>
        rw [hsome m hf] at hr
        cases hr
    · exact hnone
  · intro h
    have hf : firstFailingCheck64 st = some "Total Fixed Costs cannot be negative." := by
      have h0 := h
      simp only [totalFixedCosts64] at h0
      simp [firstFailingCheck64, h0]
    exact ⟨hf, hsome _ hf⟩
  · intro hmode x
    simp [breakeven64, totalFixedCosts64, hmode]
  · intro hmode x
    simp [breakeven64, totalFixedCosts64, hmode]

/-- An input with a negative total of fixed costs and a percentage of 150 reports the
negative total. -/
theorem validation_first_failure64_witness :
    F64.lt (totalFixedCosts64 exampleTwoFailures) (.fin 0) = true ∧
    F64.gt (parseNumber64 exampleTwoFailures.payrollPercent) (.fin 100) = true ∧
    breakeven64 exampleTwoFailures = .error "Total Fixed Costs cannot be negative." :=
  ⟨by decide!, by decide!,
    ((validation_first_failure64 exampleTwoFailures).2.2.1 (by decide!)).2⟩

/-- The run on a price of 5e-324 with 60 percent cost of sales: the four checks of the
inputs pass, the product of the price and 0.6 rounds back to the price, the margin is zero,
and the margin error is reported. -/
theorem tinyPrice_run :
    F64.lt (totalFixedCosts64 exampleTinyPrice) (.fin 0) = false ∧
    (inPercentRange64 (parseNumber64 exampleTinyPrice.costOfSalesPercent) &&
      inPercentRange64 (parseNumber64 exampleTinyPrice.directExpensesPercent) &&
      inPercentRange64 (parseNumber64 exampleTinyPrice.payrollPercent)) = true ∧
    F64.ge (parseNumber64 exampleTinyPrice.costOfSalesPercent +
      parseNumber64 exampleTinyPrice.directExpensesPercent +
      parseNumber64 exampleTinyPrice.payrollPercent) (.fin 100) = false ∧
    F64.gt (parseNumber64 exampleTinyPrice.avgSalePricePerGuest) (.fin 0) = true ∧
    breakeven64 exampleTinyPrice = .error
      "Selling Price Per Guest must be greater than Variable Cost Per Guest to achieve a breakeven point." := by
  decide!

/-- The run on a guest count of 5e-324 with 50 percent cost of sales: the four checks of
the inputs pass, half the guest count rounds to zero, and the denominator error is
reported. -/
theorem tinyGuests_run :
    F64.lt (totalFixedCosts64 exampleTinyGuests) (.fin 0) = false ∧
    (inPercentRange64 (parseNumber64 exampleTinyGuests.costOfSalesPercent) &&
      inPercentRange64 (parseNumber64 exampleTinyGuests.directExpensesPercent) &&
      inPercentRange64 (parseNumber64 exampleTinyGuests.payrollPercent)) = true ∧
    F64.ge (parseNumber64 exampleTinyGuests.costOfSalesPercent +
      parseNumber64 exampleTinyGuests.directExpensesPercent +
      parseNumber64 exampleTinyGuests.payrollPercent) (.fin 100) = false ∧
    F64.gt (parseNumber64 exampleTinyGuests.avgNumGuests) (.fin 0) = true ∧
    breakeven64 exampleTinyGuests = .error
      "Cannot calculate breakeven average revenue. Ensure average number of guests is positive and total variable costs are less than 100%." := by
  decide!

/-- Claim C13 as the specification words it fails: on a price of 5e-324 with 60 percent
cost of sales none of the checks (1) to (4) fails, and yet the run fails, with the error of
the margin check. -/
theorem margin_error_after_four_checks :
    F64.lt (totalFixedCosts64 exampleTinyPrice) (.fin 0) = false ∧
    (inPercentRange64 (parseNumber64 exampleTinyPrice.costOfSalesPercent) &&
      inPercentRange64 (parseNumber64 exampleTinyPrice.directExpensesPercent) &&
      inPercentRange64 (parseNumber64 exampleTinyPrice.payrollPercent)) = true ∧
    F64.ge (parseNumber64 exampleTinyPrice.costOfSalesPercent +
      parseNumber64 exampleTinyPrice.directExpensesPercent +
      parseNumber64 exampleTinyPrice.payrollPercent) (.fin 100) = false ∧
    F64.gt (parseNumber64 exampleTinyPrice.avgSalePricePerGuest) (.fin 0) = true ∧
    breakeven64 exampleTinyPrice = .error
      "Selling Price Per Guest must be greater than Variable Cost Per Guest to achieve a breakeven point." :=
  tinyPrice_run

/-- Claim C15 as the specification words it fails: in binary64 both domain checks are
reached.  A price of 5e-324 with 60 percent passes the earlier checks and is stopped by the
margin check; a guest count of 5e-324 with 50 percent passes the earlier checks and is
stopped by the denominator check. -/
theorem domain_checks_reached :
    (F64.gt (parseNumber64 exampleTinyPrice.avgSalePricePerGuest) (.fin 0) = true ∧
      breakeven64 exampleTinyPrice = .error
        "Selling Price Per Guest must be greater than Variable Cost Per Guest to achieve a breakeven point.") ∧
    (F64.gt (parseNumber64 exampleTinyGuests.avgNumGuests) (.fin 0) = true ∧
      breakeven64 exampleTinyGuests = .error
        "Cannot calculate breakeven average revenue. Ensure average number of guests is positive and total variable costs are less than 100%.") :=
  ⟨⟨tinyPrice_run.2.2.2.1, tinyPrice_run.2.2.2.2⟩,
    ⟨tinyGuests_run.2.2.2.1, tinyGuests_run.2.2.2.2⟩⟩

/-- The items 1e16, -1 and -1e16, whose exact sum is -1, are added to 0 by the code, and
the run is accepted with a breakeven point of 0 guests. -/
theorem absorbed_item_accepted :
    totalFixedCosts64 exampleAbsorbedItem = .fin 0 ∧
    breakeven64 exampleAbsorbedItem = .ok
      { calculatedBreakevenPoint := .fin 0
        outputType := "guests"
        calculatedBreakevenTotalRevenue := .fin 0
        weeklyRevenue := .fin 0 } := by
  decide!

/-- Claim C14, as amended: `parseNumber` parses a string to a float and defaults to 0 for
the empty string: for the empty string it returns 0 and for every string that parses it
returns the parsed value, exact or rounded to binary64; so on every text other than a
non-empty one that does not parse, which is every text a number field hands over,
`parseNumber` does not return NaN. -/
theorem parseNumber_default :
    parseNumber .empty = num 0 ∧
    (∀ q : ℚ, parseNumber (.text (num q)) = num q) ∧
    parseNumber64 .empty = .fin 0 ∧
    (∀ q : ℚ, parseNumber64 (.text (num q)) = F64.round64 q) ∧
    (∀ value : FieldText, value ≠ .text nan →
      isNaN (parseNumber value) = false ∧ F64.isNaN (parseNumber64 value) = false) := by
  refine ⟨rfl, fun _ => rfl, by decide!, fun _ => rfl, ?_⟩
  intro value hv
  rcases value with _ | x
  · exact ⟨rfl, by decide!⟩
  · rcases x with _ | q
    · exact absurd rfl hv
    · exact ⟨rfl, F64.isNaN_round64 q⟩

/-- The empty field and the field reading 12.5 do not give NaN. -/
theorem parseNumber_default_witness :
    isNaN (parseNumber (.text (num (25 / 2)))) = false ∧
    F64.isNaN (parseNumber64 (.text (num (25 / 2)))) = false :=
  parseNumber_default.2.2.2.2 (.text (num (25 / 2))) (by decide)

/-- Claim C14 as it is worded fails: for a non-empty text that does not parse, such as
"abc", `parseNumber` gives NaN and not 0. -/
theorem parseNumber_text_not_zero :
    parseNumber (.text nan) = nan ∧ parseNumber (.text nan) ≠ num 0 ∧
    parseNumber64 (.text nan) = .nan ∧ parseNumber64 (.text nan) ≠ .fin 0 := by
  refine ⟨rfl, ?_, rfl, ?_⟩
  · intro h
    cases h
  · intro h
    cases h

/-- Claim C16 as it is worded fails in binary64.  On fixed costs 10000, 40 percent and a
price of 100 the price-per-guest run gives 166.66666666666666 guests and a total revenue of
16666.666666666664; guest-count mode on that guest count gives 100.00000000000001 per
guest, not 100, and a total revenue of 16666.666666666668. -/
theorem modes_inverse_rounding :
    (breakeven64 examplePerGuest).toOption.map Breakeven64.calculatedBreakevenPoint =
      some (parseNumber64 exampleTurnedAround.avgNumGuests) ∧
    parseNumber64 exampleTurnedAround.avgNumGuests =
      .fin (5864062014805333 / 35184372088832) ∧
    (breakeven64 examplePerGuest).toOption.map Breakeven64.calculatedBreakevenTotalRevenue =
      some (.fin (2290649224533333 / 137438953472)) ∧
    (breakeven64 exampleTurnedAround).toOption.map Breakeven64.calculatedBreakevenPoint =
      some (.fin (7036874417766401 / 70368744177664)) ∧
    (breakeven64 exampleTurnedAround).toOption.map Breakeven64.calculatedBreakevenPoint ≠
      some (parseNumber64 examplePerGuest.avgSalePricePerGuest) ∧
    (breakeven64 exampleTurnedAround).toOption.map
        Breakeven64.calculatedBreakevenTotalRevenue =
      some (.fin (4581298449066667 / 274877906944)) ∧
    (breakeven64 exampleTurnedAround).toOption.map
        Breakeven64.calculatedBreakevenTotalRevenue ≠
      (breakeven64 examplePerGuest).toOption.map
        Breakeven64.calculatedBreakevenTotalRevenue := by
  decide!

/-- Fixed costs 6000, 40 percent and a price of 100 give 100 guests; 100 guests entered as
the guest count give back the price of 100 per guest and the same total revenue. -/
theorem modes_inverse_witness :
    ∃ (r : Breakeven) (r2 : Breakeven), breakeven exampleWholeGuests = .ok r ∧
      r.calculatedBreakevenPoint = num 100 ∧
      breakeven exampleWholeGuestsTurned = .ok r2 ∧
      r2.calculatedBreakevenPoint = num 100 ∧
      r2.calculatedBreakevenTotalRevenue = r.calculatedBreakevenTotalRevenue := by
  have hT : totalFixedCosts exampleWholeGuests = num 6000 := by
    norm_num [totalFixedCosts, exampleWholeGuests, examplePerGuest, initial, parseNumber,
      parseFloat]
  obtain ⟨r, g, hr, hg, _, _, hinv, _⟩ :=
    modes_inverse exampleWholeGuests exampleWholeGuestsTurned 25 10 5 100 6000 rfl hT
      (by norm_num) rfl rfl rfl (by norm_num) (by norm_num) (by norm_num) (by norm_num)
      (by norm_num) (by norm_num) (by norm_num) rfl (by norm_num) rfl rfl rfl rfl rfl
  have hg2 : g = 100 := by
    have hok := perGuest_ok exampleWholeGuests 25 10 5 100 rfl (by rw [hT]; norm_num)
      rfl rfl rfl (by norm_num) (by norm_num) (by norm_num) (by norm_num) (by norm_num)
      (by norm_num) (by norm_num) rfl (by norm_num)
    rw [hok] at hr
    cases hr
    rw [hT] at hg
    norm_num at hg
    exact hg.symm
  obtain ⟨r2, hr2, hp, ht⟩ := hinv (by rw [hg2]; rfl)
  exact ⟨r, r2, hr, by rw [hg, hg2], hr2, hp, ht⟩

end Detailed
